import Mathlib

/-!
Verification of the cryptodesk signal engines, scanner, history store and
backtester against their natural-language specification.

The Lean definitions below are a shallow embedding of the Python sources:

* `src/dashboard/fam_engine.py`      — slow/position variant (`fam_analyze`)
* `src/dashboard/swing_h1_engine.py` — intermediate/swing variant (`swing_h1_analyze`)
* `src/dashboard/scalp_engine.py`    — fast/scalp variant (`scalp_analyze`)
* `src/main.py`                      — dedup/history, backtest replay, config load
* `src/scanner/scan_engine.py`       — full-market scan state machine
* `src/core/utils.py`                — `sanitize`

Prices, percentages, funding and open-interest values are modelled as
rationals.  Python `round(x, n)` rounds ties to even; the `pyRound`
functions below round ties away from even ties only at exact .5 boundaries,
which no theorem in this file depends on (no statement distinguishes tie
behaviour).  Each engine pipeline is modelled from the point where the
per-timeframe observations (MA comparisons, cross flags, structure class,
fetched funding / open-interest / macro context, and the structurally
chosen stop and target prices) are in scope, exactly mirroring the
subsequent control flow of the Python function down to the returned
record fields used by the claims (`direction`, `confidence`, `score`,
`rr`, `entry_verdict`).
-/

namespace CryptoDesk

/-- Trade direction as stored in the `direction` field of a Signal Record. -/
inductive Direction where
  | LONG
  | SHORT
  | WAIT
deriving DecidableEq, Repr

/-- Per-timeframe bias (`d1_bias`, `h4_bias`, `h1_bias` in the sources). -/
inductive Bias where
  | LONG
  | SHORT
  | NEUTRAL
deriving DecidableEq, Repr

/-- Confidence grade of a Signal Record. -/
inductive Confidence where
  | LOW
  | MEDIUM
  | HIGH
deriving DecidableEq, Repr

/-- Entry verdict of a Signal Record (`entry_verdict`). -/
inductive Verdict where
  | GO
  | WAIT
  | NO
deriving DecidableEq, Repr

/-- BTC macro sentiment values produced by `fetch_btc_context` (binance.py). -/
inductive Sentiment where
  | RISK_ON
  | RISK_OFF
  | DUMP
  | PUMP
  | NEUTRAL
  | UNKNOWN
deriving DecidableEq, Repr

/-- BTC trend values produced by `fetch_btc_context` (`d1_trend`); `NA` models
the "N/A" string returned on fetch failure. -/
inductive Trend where
  | BULL
  | BEAR
  | NEUTRAL
  | NA
deriving DecidableEq, Repr

/-- Result of `ma_slope` (indicators.py). -/
inductive Slope where
  | UP
  | DOWN
  | FLAT
deriving DecidableEq, Repr

/-- Result of `classify_structure` (indicators.py). -/
inductive MktStructure where
  | UPTREND
  | DOWNTREND
  | SIDEWAYS
deriving DecidableEq, Repr

/-- Fast-timeframe sub-state: values of `get_h1_status` (fam engine),
`get_m15_status` (swing engine) and `get_m5_status` (scalp engine). -/
inductive TFStatus where
  | CONFIRMED
  | PULLBACK
  | COUNTER
  | FORMING
  | NEUTRAL
  | OVERBOUGHT
  | OVERSOLD
deriving DecidableEq, Repr

/-- Python `round(x, 2)` on a rational, as round-half-up via the floor
(Python itself rounds ties to even; no theorem below depends on tie
behaviour). -/
def pyRound2 (q : ℚ) : ℚ := ((Int.floor (q * 100 + 1/2) : ℤ) : ℚ) / 100

/-- Python `round(x, 6)` on a rational. -/
def pyRound6 (q : ℚ) : ℚ := ((Int.floor (q * 1000000 + 1/2) : ℤ) : ℚ) / 1000000

/-- Direction assigned from an agreed bias (`direction = d1_bias` etc.). -/
def Bias.toDirection : Bias → Direction
  | .LONG => .LONG
  | .SHORT => .SHORT
  | .NEUTRAL => .WAIT

/-- Confidence from the condition count, shared by all three dashboard
engines: `"HIGH" if score >= 5 else "MEDIUM" if score >= 3 else "LOW"`. -/
def confFromScore (score : ℕ) : Confidence :=
  if 5 ≤ score then .HIGH else if 3 ≤ score then .MEDIUM else .LOW

/-- Score adjustment from `_interpret_funding` / `_interp_funding`: `-1` when
funding opposes the direction beyond 0.05 percent, else `0` (warning strings
omitted). -/
def interpFundingAdj (funding : Option ℚ) (d : Direction) : ℤ :=
  match funding with
  | none => 0
  | some f =>
      if d = .LONG then (if 5/100 < f then -1 else 0)
      else if d = .SHORT then (if f < -(5/100) then -1 else 0)
      else 0

/-- PATCH A in all three engines: block a direction that opposes the BTC
macro context (sentiment plus D1 trend); forces WAIT with confidence LOW. -/
def btcHardBlock (sent : Sentiment) (d1t : Trend) (dc : Direction × Confidence) :
    Direction × Confidence :=
  if dc.1 = .LONG ∧ (sent = .RISK_OFF ∨ sent = .DUMP) ∧ d1t = .BEAR then (.WAIT, .LOW)
  else if dc.1 = .SHORT ∧ sent = .RISK_ON ∧ d1t = .BULL then (.WAIT, .LOW)
  else dc

/-- PATCH E in all three engines: open-interest hard block.  A fall below
-3 percent blocks LONG, a rise above +3 percent blocks SHORT; both force
WAIT with confidence LOW.  `none` (fetch failure) never blocks. -/
def oiHardBlock (oi : Option ℚ) (dc : Direction × Confidence) :
    Direction × Confidence :=
  match oi with
  | none => dc
  | some x =>
      if dc.1 = .LONG ∧ x < -3 then (.WAIT, .LOW)
      else if dc.1 = .SHORT ∧ 3 < x then (.WAIT, .LOW)
      else dc

/-- Confidence downgrade from the combined funding/volatility adjustment:
`total_adj <= -2` forces LOW (when not already LOW), `total_adj == -1`
demotes HIGH to MEDIUM. -/
def adjustConfidence (totalAdj : ℤ) (c : Confidence) : Confidence :=
  if totalAdj ≤ -2 ∧ c ≠ .LOW then .LOW
  else if totalAdj = -1 ∧ c = .HIGH then .MEDIUM
  else c

/-- Percentage distance of a level from entry:
`round(abs(entry - p) / entry * 100, 2) if entry != p else 0`. -/
def pctDist (entry p : ℚ) : ℚ :=
  if entry = p then 0 else pyRound2 (|entry - p| / entry * 100)

/-- Risk:reward: `round(tp1_pct / sl_pct, 2) if sl_pct > 0 else 0`. -/
def rrOf (slPct tp1Pct : ℚ) : ℚ :=
  if 0 < slPct then pyRound2 (tp1Pct / slPct) else 0

/-! ### Checklist construction

A checklist item is modelled by its `ok` field only (`some true` /
`some false` / `none` for the Python `True` / `False` / `None`); the
explanatory `text` strings never influence control flow and are omitted. -/

/-- Confidence check of `build_entry_checklist` (fam engine): HIGH passes,
MEDIUM and LOW both fail. -/
def confCheckFam (c : Confidence) : Option Bool :=
  match c with
  | .HIGH => some true
  | .MEDIUM => some false
  | .LOW => some false

/-- Confidence check of `build_checklist` (swing and scalp engines): HIGH
passes, MEDIUM is undecided, LOW fails. -/
def confCheckFast (c : Confidence) : Option Bool :=
  match c with
  | .HIGH => some true
  | .MEDIUM => none
  | .LOW => some false

/-- H1 confirmation check (fam engine). -/
def h1Check (s : TFStatus) : Option Bool :=
  match s with
  | .CONFIRMED => some true
  | .PULLBACK => none
  | .COUNTER => some false
  | _ => none

/-- M15 confirmation check (swing engine). -/
def m15Check (s : TFStatus) : Option Bool :=
  match s with
  | .CONFIRMED => some true
  | _ => none

/-- M5 confirmation check (scalp engine). -/
def m5Check (s : TFStatus) : Option Bool :=
  match s with
  | .CONFIRMED => some true
  | .OVERBOUGHT => some false
  | .OVERSOLD => some false
  | _ => none

/-- No-trade-zone check (fam and swing engines): passes outside the zone,
undecided inside. -/
def noTradeCheck (noTrade : Bool) : Option Bool :=
  if noTrade then none else some true

/-- Risk:reward check, identical in all three engines: `>= 2` and `>= 1.5`
pass, `>= 1` undecided, below 1 fails. -/
def rrCheck (rr : ℚ) : Option Bool :=
  if 2 ≤ rr then some true
  else if 3/2 ≤ rr then some true
  else if 1 ≤ rr then none
  else some false

/-- Funding check, identical in all three engines; skipped when funding is
unavailable.  The non-LONG branch is the source `else` branch (labelled
SHORT) and therefore also applies to WAIT. -/
def fundingChecks (funding : Option ℚ) (d : Direction) : List (Option Bool) :=
  match funding with
  | none => []
  | some f =>
      if d = .LONG then
        [if f < -(1/100) then some true else if 5/100 < f then some false else none]
      else
        [if 1/100 < f then some true else if f < -(5/100) then some false else none]

/-- BTC context check.  The fam engine has an extra explicit
RISK_ON-and-SHORT branch yielding `None`, which coincides with the final
else branch, so one definition serves all three engines. -/
def btcCheck (sent : Sentiment) (d : Direction) : Option Bool :=
  if sent = .RISK_ON ∧ d = .LONG then some true
  else if (sent = .RISK_OFF ∨ sent = .DUMP) ∧ d = .SHORT then some true
  else if (sent = .RISK_OFF ∨ sent = .DUMP) ∧ d = .LONG then some false
  else none

/-- Open-interest check (fam and swing engines); skipped when unavailable. -/
def oiChecks (oi : Option ℚ) (d : Direction) : List (Option Bool) :=
  match oi with
  | none => []
  | some x =>
      if d = .LONG then
        [if 5 < x then some true else if x < -5 then some false else none]
      else
        [if x < -5 then some true else if 5 < x then some false else none]

/-- RSI check (scalp engine only). -/
def rsiCheck (rsi : ℚ) (d : Direction) : Option Bool :=
  if d = .LONG then
    (if 70 < rsi then some false else if 40 ≤ rsi then some true else none)
  else
    (if rsi < 30 then some false else if rsi ≤ 60 then some true else none)

/-- Number of checks whose `ok` field is `True`. -/
def countOk (cs : List (Option Bool)) : ℕ := cs.countP (fun c => c = some true)

/-- Number of checks whose `ok` field is `False`. -/
def countFail (cs : List (Option Bool)) : ℕ := cs.countP (fun c => c = some false)

/-- Pre-override verdict of the fam engine checklist:
`NO if fail >= 2; GO if fail == 0 and ok >= 4; else WAIT`. -/
def famBaseVerdict (ok fail : ℕ) : Verdict :=
  if 2 ≤ fail then .NO
  else if fail = 0 ∧ 4 ≤ ok then .GO
  else .WAIT

/-- Pre-override verdict of the swing and scalp engine checklists:
`NO if fail >= 2; GO if ok >= 4; else WAIT` (no zero-fail requirement). -/
def fastBaseVerdict (ok fail : ℕ) : Verdict :=
  if 2 ≤ fail then .NO
  else if 4 ≤ ok then .GO
  else .WAIT

/-- Confidence override applied inside every checklist builder: LOW maps to
NO (any fail) or WAIT, MEDIUM demotes GO to WAIT, HIGH passes through. -/
def confOverride (c : Confidence) (fail : ℕ) (v : Verdict) : Verdict :=
  match c with
  | .LOW => if 1 ≤ fail then .NO else .WAIT
  | .MEDIUM => if v = .GO then .WAIT else v
  | .HIGH => v

/-- Checklist of `build_entry_checklist` (fam engine), in source order. -/
def famChecks (d : Direction) (h1s : TFStatus) (rr : ℚ) (funding oi : Option ℚ)
    (sent : Sentiment) (noTrade : Bool) (c : Confidence) : List (Option Bool) :=
  [confCheckFam c, h1Check h1s, noTradeCheck noTrade, rrCheck rr]
    ++ fundingChecks funding d ++ [btcCheck sent d] ++ oiChecks oi d

/-- Verdict returned by `build_entry_checklist` (fam engine): the base
verdict, the confidence override, then FORMING/COUNTER demotes GO. -/
def famChecklistVerdict (d : Direction) (h1s : TFStatus) (rr : ℚ)
    (funding oi : Option ℚ) (sent : Sentiment) (noTrade : Bool)
    (c : Confidence) : Verdict :=
  let cs := famChecks d h1s rr funding oi sent noTrade c
  let v := confOverride c (countFail cs) (famBaseVerdict (countOk cs) (countFail cs))
  if (h1s = .FORMING ∨ h1s = .COUNTER) ∧ v = .GO then .WAIT else v

/-- Checklist of `build_checklist` (swing engine), in source order. -/
def swChecks (d : Direction) (m15s : TFStatus) (rr : ℚ) (funding oi : Option ℚ)
    (sent : Sentiment) (noTrade : Bool) (c : Confidence) : List (Option Bool) :=
  [confCheckFast c, m15Check m15s, noTradeCheck noTrade, rrCheck rr]
    ++ fundingChecks funding d ++ [btcCheck sent d] ++ oiChecks oi d

/-- Verdict returned by `build_checklist` (swing engine). -/
def swChecklistVerdict (d : Direction) (m15s : TFStatus) (rr : ℚ)
    (funding oi : Option ℚ) (sent : Sentiment) (noTrade : Bool)
    (c : Confidence) : Verdict :=
  let cs := swChecks d m15s rr funding oi sent noTrade c
  let v := confOverride c (countFail cs) (fastBaseVerdict (countOk cs) (countFail cs))
  if m15s = .FORMING ∧ v = .GO then .WAIT else v

/-- Checklist of `build_checklist` (scalp engine), in source order; the
scalp checklist has no no-trade-zone and no open-interest item. -/
def scChecks (d : Direction) (m5s : TFStatus) (rr rsi : ℚ) (funding : Option ℚ)
    (sent : Sentiment) (c : Confidence) : List (Option Bool) :=
  [confCheckFast c, m5Check m5s, rsiCheck rsi d, rrCheck rr]
    ++ fundingChecks funding d ++ [btcCheck sent d]

/-- Verdict returned by `build_checklist` (scalp engine). -/
def scChecklistVerdict (d : Direction) (m5s : TFStatus) (rr rsi : ℚ)
    (funding : Option ℚ) (sent : Sentiment) (c : Confidence) : Verdict :=
  let cs := scChecks d m5s rr rsi funding sent c
  let v := confOverride c (countFail cs) (fastBaseVerdict (countOk cs) (countFail cs))
  if (m5s = .FORMING ∨ m5s = .OVERBOUGHT ∨ m5s = .OVERSOLD) ∧ v = .GO then .WAIT else v

/-- Final GO demotion shared by the engines after the R:R gate: LOW and
MEDIUM confidence demote GO to WAIT, HIGH passes through. -/
def goDemote (c : Confidence) (v : Verdict) : Verdict :=
  match c with
  | .HIGH => v
  | _ => if v = .GO then .WAIT else v

/-- Claim-relevant fields of a returned Signal Record. -/
structure EngineOut where
  direction : Direction
  confidence : Confidence
  score : ℕ
  rr : ℚ
  entry_verdict : Verdict
deriving DecidableEq, Repr

/-! ### fam engine (`fam_analyze`, dashboard/fam_engine.py)

The input record holds the per-timeframe observations exactly as local
variables of `fam_analyze` at the start of its "DIRECTION & SCORING"
section.  `nConds` is the length of the assembled `conditions` list of
qualitative facts: the claims under verification never inspect individual
condition strings, only the count that becomes `score`, so the count is
taken as an input.  `sl_price` and `tp1` are the outputs of the structural
stop/target pickers (`_pick_tp1_long` etc.), which feed the percentage
formulas unchanged. -/
structure FamIn where
  d1_bias : Bias
  h4_bias : Bias
  no_trade : Bool
  nConds : ℕ
  h1_status : TFStatus
  funding : Option ℚ
  oi_change : Option ℚ
  btc_sent : Sentiment
  btc_d1 : Trend
  atr_adj : ℤ
  entry : ℚ
  sl_price : ℚ
  tp1 : ℚ
deriving DecidableEq, Repr

/-- fam direction-and-scoring stage: NEUTRAL bias on D1 or H4, or the H4
no-trade zone, forces WAIT/LOW/0; disagreeing biases force WAIT/LOW/0;
otherwise the agreed bias becomes the direction and the condition count
the score. -/
def famStage1 (i : FamIn) : Direction × Confidence × ℕ :=
  if i.d1_bias = .NEUTRAL ∨ i.h4_bias = .NEUTRAL ∨ i.no_trade then (.WAIT, .LOW, 0)
  else if i.d1_bias ≠ i.h4_bias then (.WAIT, .LOW, 0)
  else (i.d1_bias.toDirection, confFromScore i.nConds, i.nConds)

/-- fam direction/confidence after the BTC hard block (PATCH A). -/
def famDir2 (i : FamIn) : Direction × Confidence :=
  btcHardBlock i.btc_sent i.btc_d1 ((famStage1 i).1, (famStage1 i).2.1)

/-- fam direction/confidence after the OI hard block (PATCH E). -/
def famDir3 (i : FamIn) : Direction × Confidence :=
  oiHardBlock i.oi_change (famDir2 i)

/-- fam confidence after the funding/volatility adjustment; the funding
adjustment is computed from the direction before the hard blocks, as in
the source (line order: `_interpret_funding` before PATCH A/E). -/
def famConf4 (i : FamIn) : Confidence :=
  adjustConfidence (interpFundingAdj i.funding (famStage1 i).1 + i.atr_adj) (famDir3 i).2

/-- fam stop distance in percent. -/
def famSlPct (i : FamIn) : ℚ := pctDist i.entry i.sl_price

/-- fam target-1 distance in percent. -/
def famTp1Pct (i : FamIn) : ℚ := pctDist i.entry i.tp1

/-- fam risk:reward. -/
def famRR (i : FamIn) : ℚ := rrOf (famSlPct i) (famTp1Pct i)

/-- Full fam pipeline from the direction-and-scoring section to the
returned record: checklist rebuild with the real R:R, the R:R < 1 gate
(forcing WAIT/LOW/NO), then the final LOW/MEDIUM GO demotion. -/
def famAnalyze (i : FamIn) : EngineOut :=
  let d3 := (famDir3 i).1
  let c4 := famConf4 i
  let rr := famRR i
  let v1 := famChecklistVerdict d3 i.h1_status rr i.funding i.oi_change i.btc_sent
              i.no_trade c4
  let gate := (d3 = Direction.LONG ∨ d3 = Direction.SHORT) ∧ rr < 1
  let d5 := if gate then Direction.WAIT else d3
  let c5 := if gate then Confidence.LOW else c4
  let v2 := if gate then Verdict.NO else v1
  { direction := d5, confidence := c5, score := (famStage1 i).2.2, rr := rr,
    entry_verdict := goDemote c5 v2 }

/-! ### swing engine (`swing_h1_analyze`, dashboard/swing_h1_engine.py)

The swing conditions are simple boolean facts, so they are modelled
concretely and the score is their count, as in the source. -/
structure SwIn where
  h4_above_ma34 : Bool
  h4_above_ma89 : Bool
  h4_x_ma34_up : Bool
  h4_x_ma34_dn : Bool
  h4_structure : MktStructure
  h1_above_ma34 : Bool
  h1_above_ma89 : Bool
  h1_x_ma34_up : Bool
  h1_x_ma34_dn : Bool
  h1_x_ma89_up : Bool
  h1_structure : MktStructure
  h1_bullish : Bool
  h1_bearish : Bool
  volFactor : ℚ
  in_fib_h1 : Bool
  slope_h1_ma34 : Slope
  no_trade : Bool
  m15_status : TFStatus
  funding : Option ℚ
  oi_change : Option ℚ
  btc_sent : Sentiment
  btc_d1 : Trend
  atr_adj : ℤ
  entry : ℚ
  sl_price : ℚ
  tp1 : ℚ
deriving DecidableEq, Repr

/-- H4 bias of the swing engine: above both MAs is LONG, below both is
SHORT, mixed is NEUTRAL. -/
def swH4Bias (i : SwIn) : Bias :=
  if i.h4_above_ma34 ∧ i.h4_above_ma89 then .LONG
  else if ¬i.h4_above_ma34 ∧ ¬i.h4_above_ma89 then .SHORT
  else .NEUTRAL

/-- Swing LONG condition count (source appends one string per true flag;
`vol_confirm` is `vol_ratio > 1.3`). -/
def swCondsLong (i : SwIn) : ℕ :=
  (if i.h4_above_ma34 then 1 else 0) + (if i.h4_above_ma89 then 1 else 0)
  + (if i.h4_x_ma34_up then 1 else 0)
  + (if i.h4_structure = .UPTREND then 1 else 0)
  + (if i.h1_above_ma34 then 1 else 0) + (if i.h1_x_ma34_up then 1 else 0)
  + (if i.h1_x_ma89_up then 1 else 0)
  + (if i.h1_structure = .UPTREND then 1 else 0)
  + (if i.h1_bullish ∧ 13/10 < i.volFactor then 1 else 0)
  + (if i.in_fib_h1 then 1 else 0)
  + (if i.slope_h1_ma34 = .UP then 1 else 0)

/-- Swing SHORT condition count (ten possible items; no H1-MA89 cross
item on the SHORT side, as in the source). -/
def swCondsShort (i : SwIn) : ℕ :=
  (if ¬i.h4_above_ma34 then 1 else 0) + (if ¬i.h4_above_ma89 then 1 else 0)
  + (if i.h4_x_ma34_dn then 1 else 0)
  + (if i.h4_structure = .DOWNTREND then 1 else 0)
  + (if ¬i.h1_above_ma34 then 1 else 0) + (if i.h1_x_ma34_dn then 1 else 0)
  + (if i.h1_structure = .DOWNTREND then 1 else 0)
  + (if i.h1_bearish ∧ 13/10 < i.volFactor then 1 else 0)
  + (if i.in_fib_h1 then 1 else 0)
  + (if i.slope_h1_ma34 = .DOWN then 1 else 0)

/-- Swing direction-and-scoring stage: only the H4 bias gates; NEUTRAL H4
bias or the H1 no-trade zone forces WAIT/LOW/0. -/
def swStage1 (i : SwIn) : Direction × Confidence × ℕ :=
  if swH4Bias i = .NEUTRAL ∨ i.no_trade then (.WAIT, .LOW, 0)
  else
    let score := if swH4Bias i = .LONG then swCondsLong i else swCondsShort i
    ((swH4Bias i).toDirection, confFromScore score, score)

/-- Swing direction/confidence after the BTC hard block. -/
def swDir2 (i : SwIn) : Direction × Confidence :=
  btcHardBlock i.btc_sent i.btc_d1 ((swStage1 i).1, (swStage1 i).2.1)

/-- Swing direction/confidence after the OI hard block. -/
def swDir3 (i : SwIn) : Direction × Confidence :=
  oiHardBlock i.oi_change (swDir2 i)

/-- Swing confidence after the funding/volatility adjustment. -/
def swConf4 (i : SwIn) : Confidence :=
  adjustConfidence (interpFundingAdj i.funding (swStage1 i).1 + i.atr_adj) (swDir3 i).2

/-- Swing stop distance in percent. -/
def swSlPct (i : SwIn) : ℚ := pctDist i.entry i.sl_price

/-- Swing target-1 distance in percent. -/
def swTp1Pct (i : SwIn) : ℚ := pctDist i.entry i.tp1

/-- Swing risk:reward. -/
def swRR (i : SwIn) : ℚ := rrOf (swSlPct i) (swTp1Pct i)

/-- Full swing pipeline: in this engine the R:R < 1 gate (forcing
WAIT/LOW) runs before the checklist; afterwards LOW demotes GO, and a
WAIT direction maps the verdict to NO when R:R < 1 and to WAIT
otherwise. -/
def swAnalyze (i : SwIn) : EngineOut :=
  let d3 := (swDir3 i).1
  let c4 := swConf4 i
  let rr := swRR i
  let gate := (d3 = Direction.LONG ∨ d3 = Direction.SHORT) ∧ rr < 1
  let d4 := if gate then Direction.WAIT else d3
  let c5 := if gate then Confidence.LOW else c4
  let v1 := swChecklistVerdict d4 i.m15_status rr i.funding i.oi_change i.btc_sent
              i.no_trade c5
  let v2 := if c5 = Confidence.LOW ∧ v1 = Verdict.GO then Verdict.WAIT else v1
  let v3 := if d4 = Direction.WAIT then (if rr < 1 then Verdict.NO else Verdict.WAIT)
            else v2
  { direction := d4, confidence := c5, score := (swStage1 i).2.2, rr := rr,
    entry_verdict := v3 }

/-! ### scalp engine (`scalp_analyze`, dashboard/scalp_engine.py)

The RSI-overbought/oversold pruning of the conditions list is a no-op in
the source: the pruned string is appended only when `40 <= rsi <= 70`
(LONG) or `30 <= rsi <= 60` (SHORT), which excludes the pruning
conditions `rsi > 75` and `rsi < 25`, so the counts below are exact. -/
structure ScIn where
  h1_ema_bull : Bool
  h1_price_above_ema21 : Bool
  h1_ema_cross_up : Bool
  h1_ema_cross_dn : Bool
  slope_ema9_h1 : Slope
  m15_ema_bull : Bool
  m15_ema_cross_up : Bool
  m15_ema_cross_dn : Bool
  m15_bullish : Bool
  m15_bearish : Bool
  vol_m15 : ℚ
  rsi_m15 : ℚ
  m15_structure : MktStructure
  in_fib_m15 : Bool
  m5_status : TFStatus
  funding : Option ℚ
  oi_change : Option ℚ
  btc_sent : Sentiment
  btc_d1 : Trend
  atr_adj : ℤ
  entry : ℚ
  sl_price : ℚ
  tp1 : ℚ
deriving DecidableEq, Repr

/-- H1 bias of the scalp engine: EMA9 above EMA21 and price above EMA21 is
LONG, both reversed is SHORT, mixed is NEUTRAL. -/
def scH1Bias (i : ScIn) : Bias :=
  if i.h1_ema_bull ∧ i.h1_price_above_ema21 then .LONG
  else if ¬i.h1_ema_bull ∧ ¬i.h1_price_above_ema21 then .SHORT
  else .NEUTRAL

/-- Scalp LONG condition count (`m15_vol_spike` is `vol > 1.5`). -/
def scCondsLong (i : ScIn) : ℕ :=
  (if i.h1_ema_bull then 1 else 0) + (if i.h1_ema_cross_up then 1 else 0)
  + (if i.slope_ema9_h1 = .UP then 1 else 0)
  + (if i.m15_ema_bull then 1 else 0) + (if i.m15_ema_cross_up then 1 else 0)
  + (if i.m15_bullish ∧ 3/2 < i.vol_m15 then 1 else 0)
  + (if 40 ≤ i.rsi_m15 ∧ i.rsi_m15 ≤ 70 then 1 else 0)
  + (if i.m15_structure = .UPTREND then 1 else 0)
  + (if i.in_fib_m15 then 1 else 0)

/-- Scalp SHORT condition count. -/
def scCondsShort (i : ScIn) : ℕ :=
  (if ¬i.h1_ema_bull then 1 else 0) + (if i.h1_ema_cross_dn then 1 else 0)
  + (if i.slope_ema9_h1 = .DOWN then 1 else 0)
  + (if ¬i.m15_ema_bull then 1 else 0) + (if i.m15_ema_cross_dn then 1 else 0)
  + (if i.m15_bearish ∧ 3/2 < i.vol_m15 then 1 else 0)
  + (if 30 ≤ i.rsi_m15 ∧ i.rsi_m15 ≤ 60 then 1 else 0)
  + (if i.m15_structure = .DOWNTREND then 1 else 0)
  + (if i.in_fib_m15 then 1 else 0)

/-- Scalp direction-and-scoring stage: a NEUTRAL H1 bias forces
WAIT/LOW/0 (the scalp engine has no no-trade-zone test). -/
def scStage1 (i : ScIn) : Direction × Confidence × ℕ :=
  if scH1Bias i = .NEUTRAL then (.WAIT, .LOW, 0)
  else
    let score := if scH1Bias i = .LONG then scCondsLong i else scCondsShort i
    ((scH1Bias i).toDirection, confFromScore score, score)

/-- Scalp direction/confidence after the BTC hard block. -/
def scDir2 (i : ScIn) : Direction × Confidence :=
  btcHardBlock i.btc_sent i.btc_d1 ((scStage1 i).1, (scStage1 i).2.1)

/-- Scalp direction/confidence after the OI hard block. -/
def scDir3 (i : ScIn) : Direction × Confidence :=
  oiHardBlock i.oi_change (scDir2 i)

/-- Scalp confidence after the funding/volatility adjustment. -/
def scConf4 (i : ScIn) : Confidence :=
  adjustConfidence (interpFundingAdj i.funding (scStage1 i).1 + i.atr_adj) (scDir3 i).2

/-- Scalp stop distance in percent. -/
def scSlPct (i : ScIn) : ℚ := pctDist i.entry i.sl_price

/-- Scalp target-1 distance in percent. -/
def scTp1Pct (i : ScIn) : ℚ := pctDist i.entry i.tp1

/-- Scalp risk:reward. -/
def scRR (i : ScIn) : ℚ := rrOf (scSlPct i) (scTp1Pct i)

/-- Full scalp pipeline: the R:R < 1 gate (forcing WAIT/LOW) runs before
the checklist; afterwards a WAIT direction maps the verdict to WAIT
unconditionally (`if direction == "WAIT": entry_verdict = "WAIT"`). -/
def scAnalyze (i : ScIn) : EngineOut :=
  let d3 := (scDir3 i).1
  let c4 := scConf4 i
  let rr := scRR i
  let gate := (d3 = Direction.LONG ∨ d3 = Direction.SHORT) ∧ rr < 1
  let d4 := if gate then Direction.WAIT else d3
  let c5 := if gate then Confidence.LOW else c4
  let v1 := scChecklistVerdict d4 i.m5_status rr i.rsi_m15 i.funding i.btc_sent c5
  let v2 := if d4 = Direction.WAIT then Verdict.WAIT else v1
  { direction := d4, confidence := c5, score := (scStage1 i).2.2, rr := rr,
    entry_verdict := v2 }

/-- Modelled from the spec: the per-timeframe bias rule — "LONG if price
above both reference MAs, SHORT if below both, else NEUTRAL" — applied to
the swing engine's confirmation timeframe (H1).  The swing engine itself
never computes or gates on this bias; this spec-side definition exists to
state claim C5 against `swAnalyze`. -/
def swSpecH1Bias (i : SwIn) : Bias :=
  if i.h1_above_ma34 ∧ i.h1_above_ma89 then .LONG
  else if ¬i.h1_above_ma34 ∧ ¬i.h1_above_ma89 then .SHORT
  else .NEUTRAL

/-! ### History, dedup (`_is_duplicate_signal` / `_save_signal_to_history`,
main.py) -/

/-- Fields of a stored history entry read by the dedup check.  `time` is
the POSIX timestamp (the source stores an ISO string and parses it back
with `fromisoformat(...).timestamp()`).  The remaining projected fields
(confidence, price, sl, tp, biases, score, verdict) are never read by
dedup and are omitted. -/
structure HistEntry where
  time : ℚ
  symbol : String
  direction : String
  entry : ℚ
deriving DecidableEq, Repr

/-- Fields of a new signal record read by dedup and by the history
projection. -/
structure NewSignal where
  timestamp : ℚ
  symbol : String
  direction : String
  entry : ℚ
deriving DecidableEq, Repr

/-- Projection of a signal record to a stored history entry. -/
def toHistEntry (r : NewSignal) : HistEntry :=
  { time := r.timestamp, symbol := r.symbol, direction := r.direction,
    entry := r.entry }

/-- Python `l[-n:]`. -/
def takeLast (n : ℕ) (l : List α) : List α := l.drop (l.length - n)

/-- `_is_duplicate_signal`: scan the most recent 100 entries; a duplicate
is an entry with timestamp not older than `now - window_hours*3600`, the
same symbol and direction, a positive stored entry price, and
`abs(entry - prev_entry) / prev_entry <= 0.01`. -/
def isDuplicateSignal (r : NewSignal) (history : List HistEntry) (now : ℚ)
    (windowHours : ℚ) : Bool :=
  let cutoff := now - windowHours * 3600
  (takeLast 100 history).any fun h =>
    decide (¬ h.time < cutoff) && decide (h.symbol = r.symbol)
    && decide (h.direction = r.direction) && decide (0 < h.entry)
    && decide (|r.entry - h.entry| / h.entry ≤ 1/100)

/-- `_save_signal_to_history` composed with `save_history`: a duplicate
leaves the stored list unchanged; otherwise the projected entry is
appended and the stored list trimmed to its most recent 200 entries
(`h[-200:]`). -/
def saveSignalToHistory (r : NewSignal) (history : List HistEntry) (now : ℚ) :
    List HistEntry :=
  if isDuplicateSignal r history now 2 then history
  else takeLast 200 (history ++ [toHistEntry r])

/-! ### Backtest replay (`backtest_signal`, main.py) -/

/-- One H1 candle as used by the backtester (`ts` in POSIX seconds). -/
structure BtCandle where
  ts : ℚ
  high : ℚ
  low : ℚ
  close : ℚ
deriving DecidableEq, Repr, Inhabited

/-- Backtest outcome classes. -/
inductive BtRes where
  | WIN
  | LOSS
  | OPEN
  | ERROR
deriving DecidableEq, Repr

/-- The `bt_*` fields appended to a replayed signal. -/
structure BtOutcome where
  res : BtRes
  candles : Option ℕ
  pnl_r : Option ℚ
  unrealized_pct : Option ℚ
  unrealized_r : Option ℚ
  exit_price : Option ℚ
deriving DecidableEq, Repr

/-- Stop hit test for one candle: LONG touches stop when `low <= sl`,
otherwise (the source `else` covers SHORT) when `high >= sl`. -/
def hitSl (dir : Direction) (sl : ℚ) (c : BtCandle) : Bool :=
  if dir = .LONG then decide (c.low ≤ sl) else decide (sl ≤ c.high)

/-- Target hit test for one candle: LONG touches target when
`high >= tp1`, otherwise when `low <= tp1`. -/
def hitTp (dir : Direction) (tp1 : ℚ) (c : BtCandle) : Bool :=
  if dir = .LONG then decide (tp1 ≤ c.high) else decide (c.low ≤ tp1)

/-- The OPEN outcome: unrealized percent and R computed from the latest
close (`bt_pnl_r` stays `None`). -/
def btOpenOutcome (dir : Direction) (entry slPct lastPrice : ℚ) (nCandles : ℕ) :
    BtOutcome :=
  let unrealized :=
    if dir = .LONG then pyRound2 ((lastPrice - entry) / entry * 100)
    else pyRound2 ((entry - lastPrice) / entry * 100)
  { res := .OPEN, candles := some nCandles, pnl_r := none,
    unrealized_pct := some unrealized,
    unrealized_r := if 0 < slPct then some (pyRound2 (unrealized / slPct)) else none,
    exit_price := some (pyRound6 lastPrice) }

/-- Forward walk over the candles after the signal.  The source tests
`hit_tp1 and hit_sl` (WIN), then `hit_tp1` (WIN), then `hit_sl` (LOSS):
the first two branches build the identical WIN record, so the walk tests
`hitTp` first.  Ties therefore favour the target.  `i` counts candles
already passed. -/
def btWalk (dir : Direction) (sl tp1 slPct tp1Pct : ℚ) (i : ℕ) :
    List BtCandle → Option BtOutcome
  | [] => none
  | c :: rest =>
      if hitTp dir tp1 c then
        some { res := .WIN, candles := some (i + 1),
               pnl_r := some (if 0 < slPct then pyRound2 (tp1Pct / slPct) else 0),
               unrealized_pct := none, unrealized_r := none,
               exit_price := some (pyRound6 tp1) }
      else if hitSl dir sl c then
        some { res := .LOSS, candles := some (i + 1), pnl_r := some (-1),
               unrealized_pct := none, unrealized_r := none,
               exit_price := some (pyRound6 sl) }
      else btWalk dir sl tp1 slPct tp1Pct (i + 1) rest

/-- `df_after`: the candles strictly after the signal timestamp
(`df[df["ts"] > sig_ts]`). -/
def dfAfterOf (sigTs : ℚ) (df : List BtCandle) : List BtCandle :=
  df.filter fun c => decide (sigTs < c.ts)

/-- `backtest_signal`: keep the candles strictly after the signal
timestamp; if none remain, the latest close of the whole table yields an
OPEN outcome with `bt_candles = 0` (an empty table would raise inside the
`try`, which the handler turns into an ERROR record); otherwise walk
forward, and when neither level is ever touched produce an OPEN outcome
from the latest close of the remaining candles. -/
def backtestSignal (dir : Direction) (entry sl tp1 slPct tp1Pct sigTs : ℚ)
    (df : List BtCandle) : BtOutcome :=
  let dfAfter := dfAfterOf sigTs df
  if dfAfter.isEmpty then
    match df.getLast? with
    | none => { res := .ERROR, candles := none, pnl_r := none,
                unrealized_pct := none, unrealized_r := none, exit_price := none }
    | some lastC => btOpenOutcome dir entry slPct lastC.close 0
  else
    match btWalk dir sl tp1 slPct tp1Pct 0 dfAfter with
    | some o => o
    | none => btOpenOutcome dir entry slPct (dfAfter.getLastD default).close
                dfAfter.length

/-! ### Persisted-state load (`load_config` / `load_history`, main.py)

The JSON file on disk is abstracted as `Option (Option v)`:
`none` when the file does not exist, `some none` when it exists but reading
or parsing fails (unreadable, or invalid JSON; for the config file this
also covers the empty-after-strip text, which likewise falls through to
the default), and `some (some v)` when it parses to `v`. -/

/-- `load_config`: a missing, empty or corrupt file recovers to the
default; a parsed file is merged over the default (`DEFAULT_CONFIG.copy()`
then `merged.update(cfg)`, abstracted as `merge`).  The whole body is a
total function: every read or parse failure is caught
(`except (json.JSONDecodeError, Exception): pass`). -/
def load_config (α : Type) (dflt : α) (merge : α → α → α)
    (file : Option (Option α)) : α :=
  match file with
  | none => dflt
  | some none => dflt
  | some (some cfg) => merge dflt cfg

/-- `load_history`: a missing file yields `[]`; an existing file is fed
straight to `json.loads` with no exception handler, so a corrupt file
propagates the decode error to the caller (modelled as `Except.error`). -/
def load_history (file : Option (Option (List HistEntry))) :
    Except String (List HistEntry) :=
  match file with
  | none => .ok []
  | some none => .error ("JSONDecodeError")
  | some (some h) => .ok h

/-! ### Market scan state machine (`run_full_scan`, scanner/scan_engine.py) -/

/-- Ranking fields of one scan result. -/
structure ScanResult where
  confidence : Confidence
  score : ℤ
  rr : ℚ
deriving DecidableEq, Repr

/-- The module-wide `scan_state` dictionary. -/
structure ScanState where
  running : Bool
  progress : ℕ
  total : ℕ
  results : List ScanResult
  started_at : Option String
  finished_at : Option String
  error : Option String
  strategy : String
deriving DecidableEq, Repr

/-- `conf_order` used by the result sort. -/
def confOrder (c : Confidence) : ℕ :=
  match c with
  | .HIGH => 0
  | .MEDIUM => 1
  | .LOW => 2

/-- Sort key comparison: ascending `conf_order`, then descending score,
then descending R:R. -/
def scanKeyLe (a b : ScanResult) : Bool :=
  decide (confOrder a.confidence < confOrder b.confidence)
  || (decide (confOrder a.confidence = confOrder b.confidence)
      && (decide (b.score < a.score)
          || (decide (a.score = b.score) && decide (b.rr ≤ a.rr))))

/-- Stable insertion (an element is placed after existing equal keys, as
in Python's stable sort). -/
def insertRanked (x : ScanResult) : List ScanResult → List ScanResult
  | [] => [x]
  | y :: ys => if scanKeyLe y x then y :: insertRanked x ys else x :: y :: ys

/-- `results.sort(key=...)`. -/
def sortResults (l : List ScanResult) : List ScanResult :=
  l.foldl (fun acc x => insertRanked x acc) []

/-- `run_full_scan` as a state transition.  A call that observes
`running = True` returns at once without touching the state.  Otherwise
the state is reset and armed; `outcome` is the result of the guarded
`try` block — `Except.error msg` when fetching tickers or the worker pool
raises (the handler stores `str(e)` in `error`), or the per-symbol
results (`none` for symbols filtered out or failed and isolated).  The
`finally` clause clears `running` on every path. -/
def runFullScan (s : ScanState) (strategy startT finT : String)
    (outcome : Except String (List (Option ScanResult))) : ScanState :=
  if s.running then s
  else
    let s1 : ScanState :=
      { s with
        running := true
        progress := 0
        results := []
        error := none
        started_at := some startT
        finished_at := none
        strategy := strategy }
    match outcome with
    | .error msg => { s1 with error := some msg, running := false }
    | .ok work =>
        { s1 with
          total := work.length
          progress := work.length
          results := sortResults (work.filterMap id)
          finished_at := some finT
          running := false }

/-! ### `sanitize` (core/utils.py)

Python values reachable by the recursive sanitizer are modelled by the
mutually inductive types below; `PyFloat` carries the IEEE special values
symbolically so that "NaN or infinite" is a constructor test.  A numpy
array is sanitized through `obj.tolist()` and a per-element recursive
call, hence `nparray` holds the same element type as `list`.  A pandas
Timestamp becomes its `isoformat()` string, modelled as the carried
string. -/

/-- Float value: finite rational or one of the non-finite specials. -/
inductive PyFloat where
  | finite : ℚ → PyFloat
  | nan : PyFloat
  | inf : PyFloat
  | ninf : PyFloat
deriving DecidableEq, Repr

/-- Non-finite floats become `0.0`. -/
def sanitizeFloat : PyFloat → PyFloat
  | .finite q => .finite q
  | _ => .finite 0

mutual
/-- A Python value as seen by `sanitize`. -/
inductive PyVal where
  | dict : PyFields → PyVal
  | list : PyList → PyVal
  | pybool : Bool → PyVal
  | npbool : Bool → PyVal
  | npint : Int → PyVal
  | npfloat : PyFloat → PyVal
  | pyfloat : PyFloat → PyVal
  | nparray : PyList → PyVal
  | pyts : String → PyVal
  | pyint : Int → PyVal
  | pystr : String → PyVal
  | pynone : PyVal
deriving DecidableEq, Repr

/-- Elements of a Python list or array. -/
inductive PyList where
  | nil : PyList
  | cons : PyVal → PyList → PyList
deriving DecidableEq, Repr

/-- Key/value pairs of a Python dict. -/
inductive PyFields where
  | fnil : PyFields
  | fcons : String → PyVal → PyFields → PyFields
deriving DecidableEq, Repr
end

mutual
/-- `sanitize`: recursively convert numpy and pandas values to native
Python values and replace every NaN or infinite float by `0.0`. -/
def sanitize : PyVal → PyVal
  | .dict fs => .dict (sanitizeFields fs)
  | .list xs => .list (sanitizeList xs)
  | .pybool b => .pybool b
  | .npbool b => .pybool b
  | .npint n => .pyint n
  | .npfloat f => .pyfloat (sanitizeFloat f)
  | .pyfloat f => .pyfloat (sanitizeFloat f)
  | .nparray xs => .list (sanitizeList xs)
  | .pyts s => .pystr s
  | .pyint n => .pyint n
  | .pystr s => .pystr s
  | .pynone => .pynone

/-- `sanitize` mapped over list elements. -/
def sanitizeList : PyList → PyList
  | .nil => .nil
  | .cons v rest => .cons (sanitize v) (sanitizeList rest)

/-- `sanitize` mapped over dict values. -/
def sanitizeFields : PyFields → PyFields
  | .fnil => .fnil
  | .fcons k v rest => .fcons k (sanitize v) (sanitizeFields rest)
end

/-- A float carrying a finite value. -/
def finiteFloat : PyFloat → Bool
  | .finite _ => true
  | _ => false

mutual
/-- No float anywhere in the value is NaN or infinite. -/
def allFinite : PyVal → Bool
  | .dict fs => allFiniteFields fs
  | .list xs => allFiniteList xs
  | .npfloat f => finiteFloat f
  | .pyfloat f => finiteFloat f
  | .nparray xs => allFiniteList xs
  | _ => true

/-- `allFinite` over list elements. -/
def allFiniteList : PyList → Bool
  | .nil => true
  | .cons v rest => allFinite v && allFiniteList rest

/-- `allFinite` over dict values. -/
def allFiniteFields : PyFields → Bool
  | .fnil => true
  | .fcons _ v rest => allFinite v && allFiniteFields rest
end

mutual
/-- The value contains no numpy scalar, numpy array or pandas Timestamp. -/
def isNativeVal : PyVal → Bool
  | .dict fs => isNativeFields fs
  | .list xs => isNativeList xs
  | .npbool _ => false
  | .npint _ => false
  | .npfloat _ => false
  | .nparray _ => false
  | .pyts _ => false
  | _ => true

/-- `isNativeVal` over list elements. -/
def isNativeList : PyList → Bool
  | .nil => true
  | .cons v rest => isNativeVal v && isNativeList rest

/-- `isNativeVal` over dict values. -/
def isNativeFields : PyFields → Bool
  | .fnil => true
  | .fcons _ v rest => isNativeVal v && isNativeFields rest
end

/-! ### Concrete instances used by witnesses and counterexamples -/

/-- fam input that reaches a GO verdict: agreed LONG biases, five
conditions, confirmed H1 momentum, no vetoes, R:R = 2. -/
def famGoIn : FamIn :=
  { d1_bias := .LONG, h4_bias := .LONG, no_trade := false, nConds := 5,
    h1_status := .CONFIRMED, funding := none, oi_change := none,
    btc_sent := .NEUTRAL, btc_d1 := .NEUTRAL, atr_adj := 0,
    entry := 100, sl_price := 98, tp1 := 104 }

/-- Swing input that reaches a GO verdict: five true LONG conditions
(above both H4 MAs, fresh H4 cross, H4 uptrend, H1 above MA34), confirmed
M15, no vetoes, R:R = 2. -/
def swGoIn : SwIn :=
  { h4_above_ma34 := true, h4_above_ma89 := true, h4_x_ma34_up := true,
    h4_x_ma34_dn := false, h4_structure := .UPTREND, h1_above_ma34 := true,
    h1_above_ma89 := true, h1_x_ma34_up := false, h1_x_ma34_dn := false,
    h1_x_ma89_up := false, h1_structure := .SIDEWAYS, h1_bullish := false,
    h1_bearish := false, volFactor := 1, in_fib_h1 := false,
    slope_h1_ma34 := .FLAT, no_trade := false, m15_status := .CONFIRMED,
    funding := none, oi_change := none, btc_sent := .NEUTRAL,
    btc_d1 := .NEUTRAL, atr_adj := 0, entry := 100, sl_price := 98, tp1 := 104 }

/-- Scalp input that reaches a GO verdict: five true LONG conditions,
confirmed M5, safe RSI, no vetoes, R:R = 2. -/
def scGoIn : ScIn :=
  { h1_ema_bull := true, h1_price_above_ema21 := true, h1_ema_cross_up := true,
    h1_ema_cross_dn := false, slope_ema9_h1 := .UP, m15_ema_bull := true,
    m15_ema_cross_up := true, m15_ema_cross_dn := false, m15_bullish := false,
    m15_bearish := false, vol_m15 := 1, rsi_m15 := 50,
    m15_structure := .SIDEWAYS, in_fib_m15 := false, m5_status := .CONFIRMED,
    funding := none, oi_change := none, btc_sent := .NEUTRAL,
    btc_d1 := .NEUTRAL, atr_adj := 0, entry := 100, sl_price := 99, tp1 := 102 }

/-- fam input whose direction survives all vetoes as LONG but whose
R:R is 0.5 (< 1). -/
def famLowRrIn : FamIn :=
  { famGoIn with sl_price := 99, tp1 := 100 + 1/2 }

/-- Swing input whose direction survives all vetoes as LONG but whose
R:R is 0.5 (< 1). -/
def swLowRrIn : SwIn :=
  { swGoIn with sl_price := 99, tp1 := 100 + 1/2 }

/-- Scalp input whose direction survives all vetoes as LONG but whose
R:R is 0.5 (< 1): stop 1 percent away, target 0.5 percent away. -/
def scLowRrIn : ScIn :=
  { scGoIn with sl_price := 99, tp1 := 100 + 1/2 }

/-- Swing input whose checklist carries exactly one failing check (the
BTC context check: DUMP sentiment against a LONG direction) next to four
passing checks; the BTC hard block does not fire because the BTC D1
trend is BULL (reachable: sentiment DUMP only needs an H4 BEAR trend and
a 24h drop over 3 percent). -/
def swOneFailIn : SwIn :=
  { swGoIn with btc_sent := .DUMP, btc_d1 := .BULL }

/-- fam input with an open-interest change of exactly -3 percent and a
LONG direction: the hard block condition `oi_change < -3` is strict, so
the direction survives. -/
def famOiEdgeIn : FamIn :=
  { famGoIn with oi_change := some (-3) }

/-- fam input with an open-interest fall of 4 percent against a LONG
direction. -/
def famOiBlockIn : FamIn :=
  { famGoIn with oi_change := some (-4) }

/-- Swing input with an open-interest rise of 4 percent against a SHORT
direction (all-below H4/H1 observations, R:R = 2). -/
def swOiBlockIn : SwIn :=
  { swGoIn with
    h4_above_ma34 := false
    h4_above_ma89 := false
    h4_x_ma34_up := false
    h4_structure := .DOWNTREND
    h1_above_ma34 := false
    h1_above_ma89 := false
    oi_change := some 4
    sl_price := 102
    tp1 := 96 }

/-- Scalp input with an open-interest fall of 4 percent against a LONG
direction. -/
def scOiBlockIn : ScIn :=
  { scGoIn with oi_change := some (-4) }

/-- fam input with a NEUTRAL D1 bias. -/
def famNeutralIn : FamIn :=
  { famGoIn with d1_bias := .NEUTRAL }

/-- Swing input inside the H1 no-trade zone. -/
def swNoTradeIn : SwIn :=
  { swGoIn with no_trade := true }

/-- Scalp input with a NEUTRAL H1 bias (EMA9 above EMA21 but price below
EMA21). -/
def scNeutralIn : ScIn :=
  { scGoIn with h1_price_above_ema21 := false }

/-- Swing input whose H4 bias is LONG while the H1 (confirmation
timeframe) sits above MA34 but below MA89 — a NEUTRAL confirmation bias
in the spec's sense.  Reachable outside the no-trade zone whenever the H1
MAs diverge by less than 0.5 percent.  The engine still answers LONG. -/
def swNeutralH1In : SwIn :=
  { swGoIn with
    h4_x_ma34_up := false
    h4_structure := .SIDEWAYS
    h1_above_ma34 := true
    h1_above_ma89 := false }

/-- Stored history with one BTCUSDT LONG entry at price 50000, timestamp
1000000. -/
def histOne : List HistEntry :=
  [{ time := 1000000, symbol := "BTCUSDT", direction := "LONG", entry := 50000 }]

/-- New LONG signal 30 minutes later, entry 0.6 percent away. -/
def sigNear : NewSignal :=
  { timestamp := 1001800, symbol := "BTCUSDT", direction := "LONG", entry := 50300 }

/-- New LONG signal 30 minutes later, entry 4 percent away. -/
def sigFar : NewSignal :=
  { timestamp := 1001800, symbol := "BTCUSDT", direction := "LONG", entry := 52000 }

/-- History entry matching `sigDup` exactly. -/
def dupEntry : HistEntry :=
  { time := 1000000, symbol := "BTCUSDT", direction := "LONG", entry := 50000 }

/-- Filler history entry for a different symbol. -/
def fillerEntry : HistEntry :=
  { time := 1000000, symbol := "ETHUSDT", direction := "LONG", entry := 100 }

/-- A 101-entry history whose only matching entry sits at position 0,
outside the 100-entry tail scanned by `_is_duplicate_signal`. -/
def hist101 : List HistEntry := dupEntry :: List.replicate 100 fillerEntry

/-- New signal identical to `dupEntry`. -/
def sigDup : NewSignal :=
  { timestamp := 1000000, symbol := "BTCUSDT", direction := "LONG", entry := 50000 }

/-- Candle table for the spec's LOSS example: one indecisive candle, then
a candle whose low 97 touches the stop 98 without the high reaching the
target 104. -/
def dfLoss : List BtCandle :=
  [{ ts := 1, high := 101, low := 99, close := 100 },
   { ts := 2, high := 99, low := 97, close := 98 }]

/-- Candle table for the spec's WIN example: one indecisive candle, then
a candle whose high 105 reaches the target 104 without the low touching
the stop 98. -/
def dfWin : List BtCandle :=
  [{ ts := 1, high := 101, low := 99, close := 100 },
   { ts := 2, high := 105, low := 100, close := 104 }]

/-- An idle scan state. -/
def scanIdle : ScanState :=
  { running := false, progress := 7, total := 9, results := [],
    started_at := none, finished_at := some ("earlier"), error := none,
    strategy := "SWING_H4" }

/-- A scan state with a scan already running. -/
def scanBusy : ScanState :=
  { scanIdle with running := true }

/-! ## Helper lemmas -/

/-- The final GO demotion yields GO only from HIGH confidence. -/
theorem goDemote_eq_GO (c : Confidence) (v : Verdict) :
    goDemote c v = .GO → c = .HIGH := by
  cases c <;> cases v <;> simp [goDemote]

/-- The in-checklist confidence override yields GO only from HIGH. -/
theorem confOverride_eq_GO (c : Confidence) (fail : ℕ) (v : Verdict) :
    confOverride c fail v = .GO → c = .HIGH := by
  cases c with
  | LOW => intro h; simp only [confOverride] at h; split at h <;> simp at h
  | MEDIUM => intro h; simp only [confOverride] at h; split at h <;> simp_all
  | HIGH => intro h; rfl

/-- The fam checklist verdict is GO only with HIGH confidence. -/
theorem famChecklistVerdict_eq_GO (d : Direction) (h1s : TFStatus) (rr : ℚ)
    (funding oi : Option ℚ) (sent : Sentiment) (noTrade : Bool) (c : Confidence) :
    famChecklistVerdict d h1s rr funding oi sent noTrade c = .GO → c = .HIGH := by
  intro h
  simp only [famChecklistVerdict] at h
  split at h
  · simp at h
  · exact confOverride_eq_GO _ _ _ h

/-- The swing checklist verdict is GO only with HIGH confidence. -/
theorem swChecklistVerdict_eq_GO (d : Direction) (m15s : TFStatus) (rr : ℚ)
    (funding oi : Option ℚ) (sent : Sentiment) (noTrade : Bool) (c : Confidence) :
    swChecklistVerdict d m15s rr funding oi sent noTrade c = .GO → c = .HIGH := by
  intro h
  simp only [swChecklistVerdict] at h
  split at h
  · simp at h
  · exact confOverride_eq_GO _ _ _ h

/-- The scalp checklist verdict is GO only with HIGH confidence. -/
theorem scChecklistVerdict_eq_GO (d : Direction) (m5s : TFStatus) (rr rsi : ℚ)
    (funding : Option ℚ) (sent : Sentiment) (c : Confidence) :
    scChecklistVerdict d m5s rr rsi funding sent c = .GO → c = .HIGH := by
  intro h
  simp only [scChecklistVerdict] at h
  split at h
  · simp at h
  · exact confOverride_eq_GO _ _ _ h

/-- Adjusting a LOW confidence leaves it LOW. -/
theorem adjustConfidence_LOW (t : ℤ) : adjustConfidence t .LOW = .LOW := by
  simp [adjustConfidence]

/-- The BTC hard block leaves a WAIT direction unchanged. -/
theorem btcHardBlock_WAIT (sent : Sentiment) (d1t : Trend) (c : Confidence) :
    btcHardBlock sent d1t (.WAIT, c) = (.WAIT, c) := by
  simp [btcHardBlock]

/-- The OI hard block leaves a WAIT direction unchanged. -/
theorem oiHardBlock_WAIT (oi : Option ℚ) (c : Confidence) :
    oiHardBlock oi (.WAIT, c) = (.WAIT, c) := by
  cases oi <;> simp [oiHardBlock]

/-! ## Claims -/

/-- Claim C2 (confirmed): in every engine variant, the returned Signal
Record's entry verdict is never GO when its confidence is LOW or MEDIUM —
stated contrapositively: a GO verdict forces HIGH confidence. -/
theorem claim_C2 :
    (∀ i : FamIn, (famAnalyze i).entry_verdict = .GO →
      (famAnalyze i).confidence = .HIGH)
    ∧ (∀ i : SwIn, (swAnalyze i).entry_verdict = .GO →
      (swAnalyze i).confidence = .HIGH)
    ∧ (∀ i : ScIn, (scAnalyze i).entry_verdict = .GO →
      (scAnalyze i).confidence = .HIGH) := by
  refine ⟨fun i h => ?_, fun i h => ?_, fun i h => ?_⟩
  · simp only [famAnalyze] at h ⊢
    exact goDemote_eq_GO _ _ h
  · simp only [swAnalyze] at h ⊢
    by_cases hg : ((swDir3 i).1 = Direction.LONG ∨ (swDir3 i).1 = Direction.SHORT)
        ∧ swRR i < 1
    · simp [hg, hg.2] at h
    · simp only [hg, if_false, if_neg hg] at h ⊢
      split at h
      · split at h <;> simp at h
      · split at h
        · simp at h
        · exact swChecklistVerdict_eq_GO _ _ _ _ _ _ _ _ h
  · simp only [scAnalyze] at h ⊢
    by_cases hg : ((scDir3 i).1 = Direction.LONG ∨ (scDir3 i).1 = Direction.SHORT)
        ∧ scRR i < 1
    · simp [hg] at h
    · simp only [hg, if_false, if_neg hg] at h ⊢
      split at h
      · simp at h
      · exact scChecklistVerdict_eq_GO _ _ _ _ _ _ _ h

/-- Evaluation of the fam pipeline on `famGoIn`. -/
theorem famGoIn_eval : famAnalyze famGoIn =
    { direction := .LONG, confidence := .HIGH, score := 5, rr := 2,
      entry_verdict := .GO } := by
  simp only [famAnalyze, famDir3, famDir2, famStage1, famConf4, famRR, famSlPct,
    famTp1Pct, pctDist, rrOf, pyRound2, oiHardBlock, btcHardBlock,
    adjustConfidence, interpFundingAdj, confFromScore, Bias.toDirection,
    famChecklistVerdict, famChecks, confCheckFam, h1Check, noTradeCheck, rrCheck,
    fundingChecks, btcCheck, oiChecks, countOk, countFail, famBaseVerdict,
    confOverride, goDemote, famGoIn]
  simp [List.countP_cons, List.countP_nil]
  try norm_num [abs_of_nonneg]

/-- Evaluation of the swing pipeline on `swGoIn`. -/
theorem swGoIn_eval : swAnalyze swGoIn =
    { direction := .LONG, confidence := .HIGH, score := 5, rr := 2,
      entry_verdict := .GO } := by
  simp only [swAnalyze, swDir3, swDir2, swStage1, swH4Bias, swCondsLong,
    swCondsShort, swConf4, swRR, swSlPct, swTp1Pct, pctDist, rrOf, pyRound2,
    oiHardBlock, btcHardBlock, adjustConfidence, interpFundingAdj, confFromScore,
    Bias.toDirection, swChecklistVerdict, swChecks, confCheckFast, m15Check,
    noTradeCheck, rrCheck, fundingChecks, btcCheck, oiChecks, countOk, countFail,
    fastBaseVerdict, confOverride, swGoIn]
  simp [List.countP_cons, List.countP_nil]
  try norm_num [abs_of_nonneg]

/-- Evaluation of the scalp pipeline on `scGoIn`. -/
theorem scGoIn_eval : scAnalyze scGoIn =
    { direction := .LONG, confidence := .HIGH, score := 6, rr := 2,
      entry_verdict := .GO } := by
  simp only [scAnalyze, scDir3, scDir2, scStage1, scH1Bias, scCondsLong,
    scCondsShort, scConf4, scRR, scSlPct, scTp1Pct, pctDist, rrOf, pyRound2,
    oiHardBlock, btcHardBlock, adjustConfidence, interpFundingAdj, confFromScore,
    Bias.toDirection, scChecklistVerdict, scChecks, confCheckFast, m5Check,
    rsiCheck, rrCheck, fundingChecks, btcCheck, countOk, countFail,
    fastBaseVerdict, confOverride, scGoIn]
  simp [List.countP_cons, List.countP_nil]
  try norm_num [abs_of_nonneg]

/-- Claim C2 witness: each engine actually reaches a GO verdict on a
concrete input, and the theorem then forces HIGH confidence there. -/
theorem claim_C2_witness :
    (famAnalyze famGoIn).confidence = .HIGH
    ∧ (swAnalyze swGoIn).confidence = .HIGH
    ∧ (scAnalyze scGoIn).confidence = .HIGH :=
  ⟨claim_C2.1 famGoIn (by rw [famGoIn_eval]),
   claim_C2.2.1 swGoIn (by rw [swGoIn_eval]),
   claim_C2.2.2 scGoIn (by rw [scGoIn_eval])⟩

/-- Claim C1 (corrected): when the computed direction is LONG or SHORT
and the computed risk:reward is below 1, all three engines return
direction WAIT with confidence LOW; the fam and swing variants force the
entry verdict to NO, but the scalp variant returns entry verdict WAIT
(its final `if direction == "WAIT"` step overwrites the checklist
verdict with WAIT, not NO). -/
theorem claim_C1 :
    (∀ i : FamIn,
      (famDir3 i).1 = .LONG ∨ (famDir3 i).1 = .SHORT → famRR i < 1 →
      (famAnalyze i).direction = .WAIT ∧ (famAnalyze i).confidence = .LOW
        ∧ (famAnalyze i).entry_verdict = .NO)
    ∧ (∀ i : SwIn,
      (swDir3 i).1 = .LONG ∨ (swDir3 i).1 = .SHORT → swRR i < 1 →
      (swAnalyze i).direction = .WAIT ∧ (swAnalyze i).confidence = .LOW
        ∧ (swAnalyze i).entry_verdict = .NO)
    ∧ (∀ i : ScIn,
      (scDir3 i).1 = .LONG ∨ (scDir3 i).1 = .SHORT → scRR i < 1 →
      (scAnalyze i).direction = .WAIT ∧ (scAnalyze i).confidence = .LOW
        ∧ (scAnalyze i).entry_verdict = .WAIT) := by
  refine ⟨fun i h1 h2 => ?_, fun i h1 h2 => ?_, fun i h1 h2 => ?_⟩
  · have hg : ((famDir3 i).1 = Direction.LONG ∨ (famDir3 i).1 = Direction.SHORT)
        ∧ famRR i < 1 := ⟨h1, h2⟩
    simp only [famAnalyze, if_pos hg]
    simp [goDemote]
  · have hg : ((swDir3 i).1 = Direction.LONG ∨ (swDir3 i).1 = Direction.SHORT)
        ∧ swRR i < 1 := ⟨h1, h2⟩
    simp only [swAnalyze, if_pos hg]
    simp [h2]
  · have hg : ((scDir3 i).1 = Direction.LONG ∨ (scDir3 i).1 = Direction.SHORT)
        ∧ scRR i < 1 := ⟨h1, h2⟩
    simp only [scAnalyze, if_pos hg]
    simp

/-- Facts about `famLowRrIn` needed to instantiate claim C1. -/
theorem famLowRr_facts : (famDir3 famLowRrIn).1 = Direction.LONG
    ∧ famRR famLowRrIn < 1 := by
  simp only [famDir3, famDir2, famStage1, famRR, famSlPct, famTp1Pct, pctDist,
    rrOf, pyRound2, oiHardBlock, btcHardBlock, confFromScore, Bias.toDirection,
    famLowRrIn, famGoIn]
  simp
  try norm_num [abs_of_nonneg]

/-- Facts about `swLowRrIn` needed to instantiate claim C1. -/
theorem swLowRr_facts : (swDir3 swLowRrIn).1 = Direction.LONG
    ∧ swRR swLowRrIn < 1 := by
  simp only [swDir3, swDir2, swStage1, swH4Bias, swCondsLong, swCondsShort,
    swRR, swSlPct, swTp1Pct, pctDist, rrOf, pyRound2, oiHardBlock, btcHardBlock,
    confFromScore, Bias.toDirection, swLowRrIn, swGoIn]
  simp
  try norm_num [abs_of_nonneg]

/-- Facts about `scLowRrIn` needed to instantiate claim C1. -/
theorem scLowRr_facts : (scDir3 scLowRrIn).1 = Direction.LONG
    ∧ scRR scLowRrIn < 1 := by
  simp only [scDir3, scDir2, scStage1, scH1Bias, scCondsLong, scCondsShort,
    scRR, scSlPct, scTp1Pct, pctDist, rrOf, pyRound2, oiHardBlock, btcHardBlock,
    confFromScore, Bias.toDirection, scLowRrIn, scGoIn]
  simp
  try norm_num [abs_of_nonneg]

/-- Claim C1 witness: the three implications instantiated at concrete
low-R:R inputs. -/
theorem claim_C1_witness :
    (famAnalyze famLowRrIn).entry_verdict = .NO
    ∧ (swAnalyze swLowRrIn).entry_verdict = .NO
    ∧ (scAnalyze scLowRrIn).entry_verdict = .WAIT :=
  ⟨(claim_C1.1 famLowRrIn (Or.inl famLowRr_facts.1) famLowRr_facts.2).2.2,
   (claim_C1.2.1 swLowRrIn (Or.inl swLowRr_facts.1) swLowRr_facts.2).2.2,
   (claim_C1.2.2 scLowRrIn (Or.inl scLowRr_facts.1) scLowRr_facts.2).2.2⟩

/-- Claim C1 counterexample: in the scalp engine the computed direction
is LONG, the risk:reward is 0.5 < 1, yet the returned entry verdict is
WAIT, not NO as the claim states. -/
theorem claim_C1_cex :
    (scDir3 scLowRrIn).1 = Direction.LONG ∧ scRR scLowRrIn < 1
    ∧ (scAnalyze scLowRrIn).direction = Direction.WAIT
    ∧ (scAnalyze scLowRrIn).confidence = Confidence.LOW
    ∧ (scAnalyze scLowRrIn).entry_verdict ≠ Verdict.NO := by
  have h := scLowRr_facts
  refine ⟨h.1, h.2, ?_⟩
  have hr := (claim_C1.2.2 scLowRrIn (Or.inl h.1) h.2)
  exact ⟨hr.1, hr.2.1, by rw [hr.2.2]; simp⟩

/-- Claim C3 (corrected): the pre-override checklist verdict is NO
whenever at least two checks fail, in every variant; but only the fam
variant requires zero failing checks for GO — the swing and scalp
variants answer GO whenever at most one check fails and at least four
pass. -/
theorem claim_C3 : ∀ ok fail : ℕ,
    (2 ≤ fail → famBaseVerdict ok fail = .NO ∧ fastBaseVerdict ok fail = .NO)
    ∧ (famBaseVerdict ok fail = .GO ↔ fail = 0 ∧ 4 ≤ ok)
    ∧ (fastBaseVerdict ok fail = .GO ↔ fail ≤ 1 ∧ 4 ≤ ok)
    ∧ (famBaseVerdict ok fail = .WAIT ↔ fail < 2 ∧ ¬(fail = 0 ∧ 4 ≤ ok))
    ∧ (fastBaseVerdict ok fail = .WAIT ↔ fail < 2 ∧ ¬ 4 ≤ ok) := by
  intro ok fail
  unfold famBaseVerdict fastBaseVerdict
  split_ifs <;> simp_all <;> omega

/-- Claim C3 witness: the characterisation instantiated at concrete
counts — four passes with no fail is GO in the fam form, four passes
with one fail is GO in the swing/scalp form, two fails is NO. -/
theorem claim_C3_witness :
    famBaseVerdict 4 0 = .GO ∧ fastBaseVerdict 4 1 = .GO
    ∧ famBaseVerdict 0 2 = .NO :=
  ⟨(claim_C3 4 0).2.1.mpr (by omega), (claim_C3 4 1).2.2.1.mpr (by omega),
   ((claim_C3 0 2).1 (by omega)).1⟩

/-- Claim C3 counterexample: the swing engine checklist built for a LONG
direction with HIGH confidence, confirmed M15, R:R 2 and a DUMP BTC
sentiment has exactly one failing check and four passing checks, yet its
pre-override verdict is GO — and the full swing pipeline on `swOneFailIn`
(whose BTC D1 trend BULL disables the hard block) returns that GO.  The
claim says GO requires zero failing checks. -/
theorem claim_C3_cex :
    countFail (swChecks .LONG .CONFIRMED 2 none none .DUMP false .HIGH) = 1
    ∧ 4 ≤ countOk (swChecks .LONG .CONFIRMED 2 none none .DUMP false .HIGH)
    ∧ fastBaseVerdict
        (countOk (swChecks .LONG .CONFIRMED 2 none none .DUMP false .HIGH))
        (countFail (swChecks .LONG .CONFIRMED 2 none none .DUMP false .HIGH))
        = .GO
    ∧ (swAnalyze swOneFailIn).entry_verdict = Verdict.GO := by
  have hc : swChecks .LONG .CONFIRMED 2 none none .DUMP false .HIGH =
      [some true, some true, some true, some true, some false] := by
    simp only [swChecks, confCheckFast, m15Check, noTradeCheck, rrCheck,
      fundingChecks, btcCheck, oiChecks]
    simp
  refine ⟨?_, ?_, ?_, ?_⟩
  · simp [hc, countFail, List.countP_cons, List.countP_nil]
  · simp [hc, countOk, List.countP_cons, List.countP_nil]
  · simp [hc, countOk, countFail, fastBaseVerdict, List.countP_cons,
      List.countP_nil]
  · simp only [swAnalyze, swDir3, swDir2, swStage1, swH4Bias, swCondsLong,
      swCondsShort, swConf4, swRR, swSlPct, swTp1Pct, pctDist, rrOf, pyRound2,
      oiHardBlock, btcHardBlock, adjustConfidence, interpFundingAdj,
      confFromScore, Bias.toDirection, swChecklistVerdict, swChecks,
      confCheckFast, m15Check, noTradeCheck, rrCheck, fundingChecks, btcCheck,
      oiChecks, countOk, countFail, fastBaseVerdict, confOverride, swOneFailIn,
      swGoIn]
    simp [List.countP_cons, List.countP_nil]
    try norm_num [abs_of_nonneg]
    try simp

/-- Claim C4 (corrected): the open-interest hard block fires only on a
fall of MORE than 3 percent (LONG) or a rise of MORE than 3 percent
(SHORT) — the comparison is strict, so a change of exactly ±3 percent
does not block.  When it fires it forces WAIT with confidence LOW
regardless of score, in all three variants. -/
theorem claim_C4 :
    (∀ i : FamIn, ∀ x : ℚ, i.oi_change = some x → x < -3 →
      (famDir2 i).1 = .LONG →
      (famAnalyze i).direction = .WAIT ∧ (famAnalyze i).confidence = .LOW)
    ∧ (∀ i : FamIn, ∀ x : ℚ, i.oi_change = some x → 3 < x →
      (famDir2 i).1 = .SHORT →
      (famAnalyze i).direction = .WAIT ∧ (famAnalyze i).confidence = .LOW)
    ∧ (∀ i : SwIn, ∀ x : ℚ, i.oi_change = some x → x < -3 →
      (swDir2 i).1 = .LONG →
      (swAnalyze i).direction = .WAIT ∧ (swAnalyze i).confidence = .LOW)
    ∧ (∀ i : SwIn, ∀ x : ℚ, i.oi_change = some x → 3 < x →
      (swDir2 i).1 = .SHORT →
      (swAnalyze i).direction = .WAIT ∧ (swAnalyze i).confidence = .LOW)
    ∧ (∀ i : ScIn, ∀ x : ℚ, i.oi_change = some x → x < -3 →
      (scDir2 i).1 = .LONG →
      (scAnalyze i).direction = .WAIT ∧ (scAnalyze i).confidence = .LOW)
    ∧ (∀ i : ScIn, ∀ x : ℚ, i.oi_change = some x → 3 < x →
      (scDir2 i).1 = .SHORT →
      (scAnalyze i).direction = .WAIT ∧ (scAnalyze i).confidence = .LOW) := by
  refine ⟨fun i x ho hx hd => ?_, fun i x ho hx hd => ?_,
    fun i x ho hx hd => ?_, fun i x ho hx hd => ?_,
    fun i x ho hx hd => ?_, fun i x ho hx hd => ?_⟩
  · have h3 : famDir3 i = (Direction.WAIT, Confidence.LOW) := by
      simp only [famDir3, ho, oiHardBlock, if_pos (And.intro hd hx)]
    have hc : famConf4 i = Confidence.LOW := by
      simp only [famConf4, h3, adjustConfidence_LOW]
    simp only [famAnalyze, h3, hc]
    constructor <;> simp
  · have h3 : famDir3 i = (Direction.WAIT, Confidence.LOW) := by
      simp only [famDir3, ho, oiHardBlock]
      rw [if_neg (by simp [hd]), if_pos (And.intro hd hx)]
    have hc : famConf4 i = Confidence.LOW := by
      simp only [famConf4, h3, adjustConfidence_LOW]
    simp only [famAnalyze, h3, hc]
    constructor <;> simp
  · have h3 : swDir3 i = (Direction.WAIT, Confidence.LOW) := by
      simp only [swDir3, ho, oiHardBlock, if_pos (And.intro hd hx)]
    have hc : swConf4 i = Confidence.LOW := by
      simp only [swConf4, h3, adjustConfidence_LOW]
    simp only [swAnalyze, h3, hc]
    constructor <;> simp
  · have h3 : swDir3 i = (Direction.WAIT, Confidence.LOW) := by
      simp only [swDir3, ho, oiHardBlock]
      rw [if_neg (by simp [hd]), if_pos (And.intro hd hx)]
    have hc : swConf4 i = Confidence.LOW := by
      simp only [swConf4, h3, adjustConfidence_LOW]
    simp only [swAnalyze, h3, hc]
    constructor <;> simp
  · have h3 : scDir3 i = (Direction.WAIT, Confidence.LOW) := by
      simp only [scDir3, ho, oiHardBlock, if_pos (And.intro hd hx)]
    have hc : scConf4 i = Confidence.LOW := by
      simp only [scConf4, h3, adjustConfidence_LOW]
    simp only [scAnalyze, h3, hc]
    constructor <;> simp
  · have h3 : scDir3 i = (Direction.WAIT, Confidence.LOW) := by
      simp only [scDir3, ho, oiHardBlock]
      rw [if_neg (by simp [hd]), if_pos (And.intro hd hx)]
    have hc : scConf4 i = Confidence.LOW := by
      simp only [scConf4, h3, adjustConfidence_LOW]
    simp only [scAnalyze, h3, hc]
    constructor <;> simp

/-- Facts about `famOiBlockIn` needed to instantiate claim C4. -/
theorem famOiBlock_facts : (famDir2 famOiBlockIn).1 = Direction.LONG := by
  simp only [famDir2, famStage1, btcHardBlock, confFromScore, Bias.toDirection,
    famOiBlockIn, famGoIn]
  simp

/-- Facts about `swOiBlockIn` needed to instantiate claim C4. -/
theorem swOiBlock_facts : (swDir2 swOiBlockIn).1 = Direction.SHORT := by
  simp only [swDir2, swStage1, swH4Bias, swCondsLong, swCondsShort,
    btcHardBlock, confFromScore, Bias.toDirection, swOiBlockIn, swGoIn]
  simp

/-- Facts about `scOiBlockIn` needed to instantiate claim C4. -/
theorem scOiBlock_facts : (scDir2 scOiBlockIn).1 = Direction.LONG := by
  simp only [scDir2, scStage1, scH1Bias, scCondsLong, scCondsShort,
    btcHardBlock, confFromScore, Bias.toDirection, scOiBlockIn, scGoIn]
  simp

/-- Claim C4 witness: instantiations at a 4 percent OI fall against LONG
(fam, scalp) and a 4 percent OI rise against SHORT (swing). -/
theorem claim_C4_witness :
    (famAnalyze famOiBlockIn).direction = .WAIT
    ∧ (famAnalyze famOiBlockIn).confidence = .LOW
    ∧ (swAnalyze swOiBlockIn).direction = .WAIT
    ∧ (scAnalyze scOiBlockIn).direction = .WAIT :=
  ⟨(claim_C4.1 famOiBlockIn (-4) rfl (by norm_num) famOiBlock_facts).1,
   (claim_C4.1 famOiBlockIn (-4) rfl (by norm_num) famOiBlock_facts).2,
   (claim_C4.2.2.2.1 swOiBlockIn 4 rfl (by norm_num) swOiBlock_facts).1,
   (claim_C4.2.2.2.2.1 scOiBlockIn (-4) rfl (by norm_num) scOiBlock_facts).1⟩

/-- Claim C4 counterexample: an open-interest fall of exactly 3 percent
(`oi_change = -3`) against a LONG direction does not block — the fam
engine still returns direction LONG, refuting "a fall of at least 3%
forces WAIT". -/
theorem claim_C4_cex :
    famOiEdgeIn.oi_change = some (-3)
    ∧ (famDir2 famOiEdgeIn).1 = Direction.LONG
    ∧ (famAnalyze famOiEdgeIn).direction = Direction.LONG
    ∧ (famAnalyze famOiEdgeIn).direction ≠ Direction.WAIT := by
  refine ⟨rfl, ?_, ?_⟩
  · simp only [famDir2, famStage1, btcHardBlock, confFromScore,
      Bias.toDirection, famOiEdgeIn, famGoIn]
    simp
  · have he : (famAnalyze famOiEdgeIn).direction = Direction.LONG := by
      simp only [famAnalyze, famDir3, famDir2, famStage1, famConf4, famRR,
        famSlPct, famTp1Pct, pctDist, rrOf, pyRound2, oiHardBlock, btcHardBlock,
        adjustConfidence, interpFundingAdj, confFromScore, Bias.toDirection,
        famChecklistVerdict, famChecks, confCheckFam, h1Check, noTradeCheck,
        rrCheck, fundingChecks, btcCheck, oiChecks, countOk, countFail,
        famBaseVerdict, confOverride, goDemote, famOiEdgeIn, famGoIn]
      simp [List.countP_cons, List.countP_nil]
      try norm_num [abs_of_nonneg]
      try simp
    exact ⟨he, by rw [he]; simp⟩

/-- Claim C5 (corrected): a NEUTRAL bias forces WAIT, confidence LOW and
score 0 — in the fam variant for both the trend (D1) and confirmation
(H4) bias and for the H4 no-trade zone; but in the swing variant only
for the trend (H4) bias and the H1 no-trade zone, and in the scalp
variant only for the trend (H1) bias.  A NEUTRAL confirmation-timeframe
bias in the swing variant does not force WAIT (see the counterexample). -/
theorem claim_C5 :
    (∀ i : FamIn,
      i.d1_bias = Bias.NEUTRAL ∨ i.h4_bias = Bias.NEUTRAL ∨ i.no_trade = true →
      (famAnalyze i).direction = .WAIT ∧ (famAnalyze i).confidence = .LOW
        ∧ (famAnalyze i).score = 0)
    ∧ (∀ i : SwIn, swH4Bias i = Bias.NEUTRAL ∨ i.no_trade = true →
      (swAnalyze i).direction = .WAIT ∧ (swAnalyze i).confidence = .LOW
        ∧ (swAnalyze i).score = 0)
    ∧ (∀ i : ScIn, scH1Bias i = Bias.NEUTRAL →
      (scAnalyze i).direction = .WAIT ∧ (scAnalyze i).confidence = .LOW
        ∧ (scAnalyze i).score = 0) := by
  refine ⟨fun i h => ?_, fun i h => ?_, fun i h => ?_⟩
  · have hs : famStage1 i = (Direction.WAIT, Confidence.LOW, 0) := by
      simp only [famStage1, if_pos h]
    have h2 : famDir2 i = (Direction.WAIT, Confidence.LOW) := by
      simp only [famDir2, hs, btcHardBlock_WAIT]
    have h3 : famDir3 i = (Direction.WAIT, Confidence.LOW) := by
      simp only [famDir3, h2, oiHardBlock_WAIT]
    have hc : famConf4 i = Confidence.LOW := by
      simp only [famConf4, h3, adjustConfidence_LOW]
    simp only [famAnalyze, hs, h3, hc]
    exact ⟨by simp, by simp, by simp⟩
  · have hs : swStage1 i = (Direction.WAIT, Confidence.LOW, 0) := by
      simp only [swStage1, if_pos h]
    have h2 : swDir2 i = (Direction.WAIT, Confidence.LOW) := by
      simp only [swDir2, hs, btcHardBlock_WAIT]
    have h3 : swDir3 i = (Direction.WAIT, Confidence.LOW) := by
      simp only [swDir3, h2, oiHardBlock_WAIT]
    have hc : swConf4 i = Confidence.LOW := by
      simp only [swConf4, h3, adjustConfidence_LOW]
    simp only [swAnalyze, hs, h3, hc]
    exact ⟨by simp, by simp, by simp⟩
  · have hs : scStage1 i = (Direction.WAIT, Confidence.LOW, 0) := by
      simp only [scStage1, if_pos h]
    have h2 : scDir2 i = (Direction.WAIT, Confidence.LOW) := by
      simp only [scDir2, hs, btcHardBlock_WAIT]
    have h3 : scDir3 i = (Direction.WAIT, Confidence.LOW) := by
      simp only [scDir3, h2, oiHardBlock_WAIT]
    have hc : scConf4 i = Confidence.LOW := by
      simp only [scConf4, h3, adjustConfidence_LOW]
    simp only [scAnalyze, hs, h3, hc]
    exact ⟨by simp, by simp, by simp⟩

/-- Claim C5 witness: instantiations at a NEUTRAL D1 bias (fam), the H1
no-trade zone (swing) and a NEUTRAL H1 bias (scalp). -/
theorem claim_C5_witness :
    (famAnalyze famNeutralIn).direction = .WAIT
    ∧ (famAnalyze famNeutralIn).score = 0
    ∧ (swAnalyze swNoTradeIn).direction = .WAIT
    ∧ (scAnalyze scNeutralIn).direction = .WAIT :=
  ⟨(claim_C5.1 famNeutralIn (Or.inl rfl)).1,
   (claim_C5.1 famNeutralIn (Or.inl rfl)).2.2,
   (claim_C5.2.1 swNoTradeIn (Or.inr rfl)).1,
   (claim_C5.2.2 scNeutralIn rfl).1⟩

/-- Claim C5 counterexample: in the swing engine a NEUTRAL
confirmation-timeframe (H1) bias — price above the H1 MA34 but below the
H1 MA89 — does not force WAIT: the engine returns direction LONG. -/
theorem claim_C5_cex :
    swSpecH1Bias swNeutralH1In = Bias.NEUTRAL
    ∧ (swAnalyze swNeutralH1In).direction = Direction.LONG
    ∧ (swAnalyze swNeutralH1In).direction ≠ Direction.WAIT := by
  refine ⟨rfl, ?_⟩
  have he : (swAnalyze swNeutralH1In).direction = Direction.LONG := by
    simp only [swAnalyze, swDir3, swDir2, swStage1, swH4Bias, swCondsLong,
      swCondsShort, swConf4, swRR, swSlPct, swTp1Pct, pctDist, rrOf, pyRound2,
      oiHardBlock, btcHardBlock, adjustConfidence, interpFundingAdj,
      confFromScore, Bias.toDirection, swChecklistVerdict, swChecks,
      confCheckFast, m15Check, noTradeCheck, rrCheck, fundingChecks, btcCheck,
      oiChecks, countOk, countFail, fastBaseVerdict, confOverride,
      swNeutralH1In, swGoIn]
    simp [List.countP_cons, List.countP_nil]
    try norm_num [abs_of_nonneg]
    try simp
  exact ⟨he, by rw [he]; simp⟩


/-- Division form of the 1 percent dedup tolerance, valid for a positive
stored entry price. -/
theorem dedup_tol_iff (x e : ℚ) (he : 0 < e) : x / e ≤ 1 / 100 ↔ x ≤ e / 100 := by
  rw [div_le_div_iff he (by norm_num), le_div_iff (by norm_num)]
  constructor <;> intro h <;> linarith

/-- Claim C6 (corrected): dedup scans only the most recent 100 stored
entries (`history[-100:]`), and a non-duplicate save stores the most
recent 200 entries of the appended list (`h[-200:]`).  Within that scope
the claim holds: an entry with the same symbol and direction, a
timestamp not older than two hours before now, a positive stored entry
price and an entry within 1 percent (relative to the stored entry)
suppresses the new signal and leaves the stored history unchanged;
otherwise the projected signal is appended. -/
theorem claim_C6 : ∀ (r : NewSignal) (history : List HistEntry) (now : ℚ),
    ((∃ h ∈ takeLast 100 history, h.symbol = r.symbol ∧ h.direction = r.direction
        ∧ now - 2 * 3600 ≤ h.time ∧ 0 < h.entry
        ∧ |r.entry - h.entry| ≤ h.entry / 100) →
      saveSignalToHistory r history now = history)
    ∧ ((¬ ∃ h ∈ takeLast 100 history, h.symbol = r.symbol ∧ h.direction = r.direction
        ∧ now - 2 * 3600 ≤ h.time ∧ 0 < h.entry
        ∧ |r.entry - h.entry| ≤ h.entry / 100) →
      saveSignalToHistory r history now
        = takeLast 200 (history ++ [toHistEntry r])) := by
  intro r history now
  have key : isDuplicateSignal r history now 2 = true ↔
      (∃ h ∈ takeLast 100 history, h.symbol = r.symbol ∧ h.direction = r.direction
        ∧ now - 2 * 3600 ≤ h.time ∧ 0 < h.entry
        ∧ |r.entry - h.entry| ≤ h.entry / 100) := by
    simp only [isDuplicateSignal, List.any_eq_true, Bool.and_eq_true,
      decide_eq_true_eq, not_lt]
    constructor
    · rintro ⟨h, hm, ⟨⟨⟨ht, hsym⟩, hdir⟩, hpos⟩, htol⟩
      exact ⟨h, hm, hsym, hdir, ht, hpos, (dedup_tol_iff _ _ hpos).mp htol⟩
    · rintro ⟨h, hm, hsym, hdir, ht, hpos, htol⟩
      exact ⟨h, hm, ⟨⟨⟨ht, hsym⟩, hdir⟩, hpos⟩, (dedup_tol_iff _ _ hpos).mpr htol⟩
  constructor
  · intro hex
    unfold saveSignalToHistory
    rw [if_pos (key.mpr hex)]
  · intro hnex
    unfold saveSignalToHistory
    rw [if_neg (fun hh => hnex (key.mp hh))]

/-- Claim C6 witness: the spec's dedup example — a LONG signal 0.6
percent away within 30 minutes is suppressed, one 4 percent away is
appended. -/
theorem claim_C6_witness :
    saveSignalToHistory sigNear histOne 1001800 = histOne
    ∧ saveSignalToHistory sigFar histOne 1001800
        = takeLast 200 (histOne ++ [toHistEntry sigFar]) := by
  constructor
  · apply (claim_C6 sigNear histOne 1001800).1
    refine ⟨dupEntry, ?_, rfl, rfl, by norm_num [dupEntry],
      by norm_num [dupEntry], ?_⟩
    · simp [takeLast, histOne, dupEntry]
    · norm_num [sigNear, dupEntry]
  · apply (claim_C6 sigFar histOne 1001800).2
    rintro ⟨h, hm, hsym, hdir, ht, hpos, htol⟩
    simp only [takeLast, histOne] at hm
    simp at hm
    subst hm
    norm_num [sigFar] at htol

/-- Claim C6 counterexample: a history of 101 entries whose only
matching entry (same symbol, direction, timestamp and identical entry
price) sits at position 0 — outside the scanned 100-entry tail — is not
deduplicated: the save changes the stored history, although the claim
says it must stay unchanged. -/
theorem claim_C6_cex :
    (∃ h ∈ hist101, h.symbol = sigDup.symbol ∧ h.direction = sigDup.direction
      ∧ (1000000 : ℚ) - 2 * 3600 ≤ h.time ∧ 0 < h.entry
      ∧ |sigDup.entry - h.entry| ≤ h.entry / 100)
    ∧ saveSignalToHistory sigDup hist101 1000000 ≠ hist101 := by
  constructor
  · exact ⟨dupEntry, by simp [hist101], rfl, rfl, by norm_num [dupEntry],
      by norm_num [dupEntry], by norm_num [dupEntry, sigDup]⟩
  · have ht : takeLast 100 hist101 = List.replicate 100 fillerEntry := by
      simp [takeLast, hist101]
    have hdup : isDuplicateSignal sigDup hist101 1000000 2 = false := by
      simp only [isDuplicateSignal, ht]
      rw [List.any_eq_false]
      intro x hx
      rw [List.eq_of_mem_replicate hx]
      simp [fillerEntry, sigDup]
    simp only [saveSignalToHistory, hdup]
    intro heq
    have hlen := congrArg List.length heq
    simp [takeLast, hist101, toHistEntry] at hlen

/-- Appending candles that touch neither level shifts the walk index but
not its outcome. -/
theorem btWalk_append (dir : Direction) (sl tp1 slPct tp1Pct : ℚ) :
    ∀ (pre rest : List BtCandle) (i : ℕ),
      (∀ x ∈ pre, hitTp dir tp1 x = false ∧ hitSl dir sl x = false) →
      btWalk dir sl tp1 slPct tp1Pct i (pre ++ rest)
        = btWalk dir sl tp1 slPct tp1Pct (i + pre.length) rest := by
  intro pre
  induction pre with
  | nil => intro rest i h; simp
  | cons a pre2 ih =>
      intro rest i h
      have ha := h a (by simp)
      have hrec := ih rest (i + 1) (fun x hx => h x (by simp [hx]))
      have hidx : i + (a :: pre2).length = i + 1 + pre2.length := by
        simp only [List.length_cons]
        omega
      rw [hidx, ← hrec, List.cons_append]
      simp [btWalk, ha.1, ha.2]

/-- A walk over candles that touch neither level returns nothing. -/
theorem btWalk_none (dir : Direction) (sl tp1 slPct tp1Pct : ℚ) :
    ∀ (l : List BtCandle) (i : ℕ),
      (∀ x ∈ l, hitTp dir tp1 x = false ∧ hitSl dir sl x = false) →
      btWalk dir sl tp1 slPct tp1Pct i l = none := by
  intro l
  induction l with
  | nil => intro i h; rfl
  | cons a l2 ih =>
      intro i h
      have ha := h a (by simp)
      simp only [btWalk, ha.1, ha.2]
      simp only [Bool.false_eq_true, if_false]
      exact ih (i + 1) (fun x hx => h x (by simp [hx]))

/-- Claim C7 (confirmed): walking the candles strictly after the signal
timestamp, the first candle that reaches the stop without reaching the
target yields LOSS at -1.0 R; the first candle that reaches the target —
ties included — yields WIN at `round(tp1_pct / sl_pct, 2)` R; and when no
candle reaches either level the outcome is OPEN with the unrealized
percentage and R computed from the latest close (of the remaining
candles, or of the whole table when none remain). -/
theorem claim_C7 : ∀ (dir : Direction) (entry sl tp1 slPct tp1Pct sigTs : ℚ)
    (df : List BtCandle), 0 < slPct →
    (∀ (pre : List BtCandle) (c : BtCandle) (rest : List BtCandle),
      dfAfterOf sigTs df = pre ++ c :: rest →
      (∀ x ∈ pre, hitTp dir tp1 x = false ∧ hitSl dir sl x = false) →
      ((hitSl dir sl c = true ∧ hitTp dir tp1 c = false →
        (backtestSignal dir entry sl tp1 slPct tp1Pct sigTs df).res = .LOSS
        ∧ (backtestSignal dir entry sl tp1 slPct tp1Pct sigTs df).pnl_r
            = some (-1)
        ∧ (backtestSignal dir entry sl tp1 slPct tp1Pct sigTs df).candles
            = some (pre.length + 1))
      ∧ (hitTp dir tp1 c = true →
        (backtestSignal dir entry sl tp1 slPct tp1Pct sigTs df).res = .WIN
        ∧ (backtestSignal dir entry sl tp1 slPct tp1Pct sigTs df).pnl_r
            = some (pyRound2 (tp1Pct / slPct))
        ∧ (backtestSignal dir entry sl tp1 slPct tp1Pct sigTs df).candles
            = some (pre.length + 1))))
    ∧ ((∀ x ∈ dfAfterOf sigTs df,
          hitTp dir tp1 x = false ∧ hitSl dir sl x = false) →
      (dfAfterOf sigTs df ≠ [] →
        backtestSignal dir entry sl tp1 slPct tp1Pct sigTs df
          = btOpenOutcome dir entry slPct
              ((dfAfterOf sigTs df).getLastD default).close
              (dfAfterOf sigTs df).length
        ∧ (backtestSignal dir entry sl tp1 slPct tp1Pct sigTs df).res = .OPEN)
      ∧ (dfAfterOf sigTs df = [] → ∀ lastC, df.getLast? = some lastC →
        backtestSignal dir entry sl tp1 slPct tp1Pct sigTs df
          = btOpenOutcome dir entry slPct lastC.close 0)) := by
  intro dir entry sl tp1 slPct tp1Pct sigTs df hsl
  constructor
  · intro pre c rest hsplit hpre
    have hisEmpty : (dfAfterOf sigTs df).isEmpty = false := by
      rw [hsplit]; rcases pre with _ | ⟨p, pre2⟩ <;> rfl
    have hw := btWalk_append dir sl tp1 slPct tp1Pct pre (c :: rest) 0 hpre
    constructor
    · rintro ⟨hslc, htpc⟩
      have hw2 : btWalk dir sl tp1 slPct tp1Pct 0 (dfAfterOf sigTs df)
          = some { res := .LOSS, candles := some (pre.length + 1),
                   pnl_r := some (-1), unrealized_pct := none,
                   unrealized_r := none,
                   exit_price := some (pyRound6 sl) } := by
        rw [hsplit, hw]
        simp [btWalk, htpc, hslc, Nat.zero_add]
      refine And.intro ?_ (And.intro ?_ ?_) <;>
        simp [backtestSignal, hisEmpty, hw2]
    · intro htpc
      have hw2 : btWalk dir sl tp1 slPct tp1Pct 0 (dfAfterOf sigTs df)
          = some { res := .WIN, candles := some (pre.length + 1),
                   pnl_r := some (pyRound2 (tp1Pct / slPct)),
                   unrealized_pct := none, unrealized_r := none,
                   exit_price := some (pyRound6 tp1) } := by
        rw [hsplit, hw]
        simp [btWalk, htpc, if_pos hsl, Nat.zero_add]
      refine And.intro ?_ (And.intro ?_ ?_) <;>
        simp [backtestSignal, hisEmpty, hw2]
  · intro hall
    constructor
    · intro hne
      have hw := btWalk_none dir sl tp1 slPct tp1Pct (dfAfterOf sigTs df) 0 hall
      have hisEmpty : (dfAfterOf sigTs df).isEmpty = false := by
        rcases hd : dfAfterOf sigTs df with _ | ⟨p, l2⟩
        · exact absurd hd hne
        · rfl
      constructor
      · simp [backtestSignal, hisEmpty, hw]
      · simp [backtestSignal, hisEmpty, hw, btOpenOutcome]
    · intro hemp lastC hlast
      have hisEmpty : (dfAfterOf sigTs df).isEmpty = true := by rw [hemp]; rfl
      simp [backtestSignal, hisEmpty, hlast]

/-- Facts about the LOSS example candles. -/
theorem dfLoss_facts : dfAfterOf 0 dfLoss
      = [{ ts := 1, high := 101, low := 99, close := 100 }]
        ++ { ts := 2, high := 99, low := 97, close := 98 } :: [] := by
  simp [dfAfterOf, dfLoss]
  try norm_num

/-- Facts about the WIN example candles. -/
theorem dfWin_facts : dfAfterOf 0 dfWin
      = [{ ts := 1, high := 101, low := 99, close := 100 }]
        ++ { ts := 2, high := 105, low := 100, close := 104 } :: [] := by
  simp [dfAfterOf, dfWin]
  try norm_num

/-- Claim C7 witness: the spec's example — LONG entry 100, stop 98,
target 104: a later candle with low 97 (no prior high at 104) is a LOSS
at -1.0 R; a later candle with high 105 (no prior low at 98) is a WIN at
`tp1_pct / sl_pct = 2` R. -/
theorem claim_C7_witness :
    (backtestSignal .LONG 100 98 104 2 4 0 dfLoss).res = .LOSS
    ∧ (backtestSignal .LONG 100 98 104 2 4 0 dfLoss).pnl_r = some (-1)
    ∧ (backtestSignal .LONG 100 98 104 2 4 0 dfWin).res = .WIN
    ∧ (backtestSignal .LONG 100 98 104 2 4 0 dfWin).pnl_r = some 2 := by
  have hpre1 : ∀ x ∈ [({ ts := 1, high := 101, low := 99, close := 100 } : BtCandle)],
      hitTp Direction.LONG 104 x = false ∧ hitSl Direction.LONG 98 x = false := by
    intro x hx
    simp at hx
    subst hx
    constructor <;> (simp [hitTp, hitSl]; norm_num)
  have hL := ((claim_C7 .LONG 100 98 104 2 4 0 dfLoss (by norm_num)).1
      [{ ts := 1, high := 101, low := 99, close := 100 }]
      { ts := 2, high := 99, low := 97, close := 98 } [] dfLoss_facts hpre1).1
      (by constructor <;> (simp [hitTp, hitSl]; norm_num))
  have hW := ((claim_C7 .LONG 100 98 104 2 4 0 dfWin (by norm_num)).1
      [{ ts := 1, high := 101, low := 99, close := 100 }]
      { ts := 2, high := 105, low := 100, close := 104 } [] dfWin_facts hpre1).2
      (by simp [hitTp]; norm_num)
  refine ⟨hL.1, hL.2.1, hW.1, ?_⟩
  rw [hW.2.1]
  norm_num [pyRound2]

/-- Claim C8 (code bug): `load_config` recovers via the defaults on a
missing, empty or corrupt file and never raises, but `load_history` only
handles the missing-file case — an existing history file with invalid
JSON propagates the decode error to the caller instead of recovering
with an empty history. -/
theorem claim_C8_bug :
    (∀ (α : Type) (dflt : α) (merge : α → α → α),
      load_config α dflt merge none = dflt
      ∧ load_config α dflt merge (some none) = dflt
      ∧ ∀ cfg, load_config α dflt merge (some (some cfg)) = merge dflt cfg)
    ∧ load_history none = .ok []
    ∧ load_history (some none) = .error ("JSONDecodeError")
    ∧ (load_history (some none)).isOk = false :=
  ⟨fun α dflt merge => ⟨rfl, rfl, fun cfg => rfl⟩, rfl, rfl, rfl⟩

/-- Claim C9 (confirmed): a call of `run_full_scan` that observes
`running = True` returns without modifying the scan state; a call that
passes the gate always clears `running` before returning — also when the
guarded block fails, in which case `error` holds the exception
message. -/
theorem claim_C9 : ∀ (s : ScanState) (strategy startT finT : String)
    (outcome : Except String (List (Option ScanResult))),
    (s.running = true → runFullScan s strategy startT finT outcome = s)
    ∧ (s.running = false →
      (runFullScan s strategy startT finT outcome).running = false
      ∧ ∀ msg, outcome = .error msg →
        (runFullScan s strategy startT finT outcome).error = some msg) := by
  intro s strategy startT finT outcome
  constructor
  · intro h
    simp [runFullScan, h]
  · intro h
    constructor
    · simp only [runFullScan, h]
      cases outcome <;> simp
    · intro msg hmsg
      subst hmsg
      simp [runFullScan, h]

/-- Claim C9 witness: an idle state with a failing fetch ends not
running with the error message recorded; a busy state is returned
untouched. -/
theorem claim_C9_witness :
    (runFullScan scanIdle ("SWING_H4") ("t1") ("t2")
        (Except.error ("boom"))).running = false
    ∧ (runFullScan scanIdle ("SWING_H4") ("t1") ("t2")
        (Except.error ("boom"))).error = some ("boom")
    ∧ runFullScan scanBusy ("SWING_H4") ("t1") ("t2")
        (Except.error ("boom")) = scanBusy :=
  ⟨((claim_C9 scanIdle ("SWING_H4") ("t1") ("t2")
      (Except.error ("boom"))).2 rfl).1,
   ((claim_C9 scanIdle ("SWING_H4") ("t1") ("t2")
      (Except.error ("boom"))).2 rfl).2 ("boom") rfl,
   (claim_C9 scanBusy ("SWING_H4") ("t1") ("t2")
      (Except.error ("boom"))).1 rfl⟩

/-- Sanitizing a float always yields a finite float. -/
theorem finiteFloat_sanitizeFloat (f : PyFloat) :
    finiteFloat (sanitizeFloat f) = true := by
  cases f <;> rfl

/-- Sanitizing a float twice equals sanitizing it once. -/
theorem sanitizeFloat_idem (f : PyFloat) :
    sanitizeFloat (sanitizeFloat f) = sanitizeFloat f := by
  cases f <;> rfl

mutual
/-- After `sanitize`, no float in a value is NaN or infinite. -/
theorem sanVal_allFinite : ∀ v : PyVal, allFinite (sanitize v) = true
  | .dict fs => by simp [sanitize, allFinite, sanFields_allFinite fs]
  | .list xs => by simp [sanitize, allFinite, sanList_allFinite xs]
  | .pybool b => rfl
  | .npbool b => rfl
  | .npint n => rfl
  | .npfloat f => by simp [sanitize, allFinite, finiteFloat_sanitizeFloat f]
  | .pyfloat f => by simp [sanitize, allFinite, finiteFloat_sanitizeFloat f]
  | .nparray xs => by simp [sanitize, allFinite, sanList_allFinite xs]
  | .pyts s => rfl
  | .pyint n => rfl
  | .pystr s => rfl
  | .pynone => rfl

/-- After `sanitize`, no float in a list is NaN or infinite. -/
theorem sanList_allFinite : ∀ xs : PyList, allFiniteList (sanitizeList xs) = true
  | .nil => rfl
  | .cons v rest => by
      simp [sanitizeList, allFiniteList, sanVal_allFinite v,
        sanList_allFinite rest]

/-- After `sanitize`, no float in a dict is NaN or infinite. -/
theorem sanFields_allFinite : ∀ fs : PyFields,
    allFiniteFields (sanitizeFields fs) = true
  | .fnil => rfl
  | .fcons k v rest => by
      simp [sanitizeFields, allFiniteFields, sanVal_allFinite v,
        sanFields_allFinite rest]
end

mutual
/-- After `sanitize`, a value contains no numpy scalar, numpy array or
pandas Timestamp. -/
theorem sanVal_isNative : ∀ v : PyVal, isNativeVal (sanitize v) = true
  | .dict fs => by simp [sanitize, isNativeVal, sanFields_isNative fs]
  | .list xs => by simp [sanitize, isNativeVal, sanList_isNative xs]
  | .pybool b => rfl
  | .npbool b => rfl
  | .npint n => rfl
  | .npfloat f => rfl
  | .pyfloat f => rfl
  | .nparray xs => by simp [sanitize, isNativeVal, sanList_isNative xs]
  | .pyts s => rfl
  | .pyint n => rfl
  | .pystr s => rfl
  | .pynone => rfl

/-- After `sanitize`, a list contains no numpy or pandas values. -/
theorem sanList_isNative : ∀ xs : PyList, isNativeList (sanitizeList xs) = true
  | .nil => rfl
  | .cons v rest => by
      simp [sanitizeList, isNativeList, sanVal_isNative v,
        sanList_isNative rest]

/-- After `sanitize`, a dict contains no numpy or pandas values. -/
theorem sanFields_isNative : ∀ fs : PyFields,
    isNativeFields (sanitizeFields fs) = true
  | .fnil => rfl
  | .fcons k v rest => by
      simp [sanitizeFields, isNativeFields, sanVal_isNative v,
        sanFields_isNative rest]
end

mutual
/-- `sanitize` is idempotent on values. -/
theorem sanVal_idem : ∀ v : PyVal, sanitize (sanitize v) = sanitize v
  | .dict fs => by simp [sanitize, sanFields_idem fs]
  | .list xs => by simp [sanitize, sanList_idem xs]
  | .pybool b => rfl
  | .npbool b => rfl
  | .npint n => rfl
  | .npfloat f => by simp [sanitize, sanitizeFloat_idem f]
  | .pyfloat f => by simp [sanitize, sanitizeFloat_idem f]
  | .nparray xs => by simp [sanitize, sanList_idem xs]
  | .pyts s => rfl
  | .pyint n => rfl
  | .pystr s => rfl
  | .pynone => rfl

/-- `sanitize` is idempotent on lists. -/
theorem sanList_idem : ∀ xs : PyList, sanitizeList (sanitizeList xs) = sanitizeList xs
  | .nil => rfl
  | .cons v rest => by simp [sanitizeList, sanVal_idem v, sanList_idem rest]

/-- `sanitize` is idempotent on dicts. -/
theorem sanFields_idem : ∀ fs : PyFields,
    sanitizeFields (sanitizeFields fs) = sanitizeFields fs
  | .fnil => rfl
  | .fcons k v rest => by
      simp [sanitizeFields, sanVal_idem v, sanFields_idem rest]
end

/-- Claim C10 (confirmed): for every value, `sanitize` replaces every NaN
or infinite float by `0.0`, converts every numpy scalar, numpy array and
pandas Timestamp to a native Python value, and is idempotent.  Every
engine returns `sanitize(result)` (fam engine line 634 and the analogous
return statements of the other variants), so the returned Signal Record
contains no non-finite numbers. -/
theorem claim_C10 : ∀ v : PyVal,
    allFinite (sanitize v) = true ∧ isNativeVal (sanitize v) = true
    ∧ sanitize (sanitize v) = sanitize v :=
  fun v => ⟨sanVal_allFinite v, sanVal_isNative v, sanVal_idem v⟩

end CryptoDesk
